import Mathlib

/-!
# Verification of the openclaw state-consistency engine

This file gives a shallow embedding, in Lean 4, of the core of the
state-consistency engine (the main runtime script of the repository) together
with the inbound-message bridge, and proves/refutes the frozen claims about it.

Modelling conventions, applied uniformly:

* JavaScript numbers are modelled as exact rationals (`ℚ`); the engine only
  performs arithmetic on small decimal constants, `Math.round(x*1000)/1000`
  rounding, clamping and comparisons, all of which are modelled exactly.
* Timestamps: ISO-8601 strings are kept as `String` values; where the source
  parses them (`Date.parse`) the model consults an environment function
  `parseTs : String → Option ℤ` returning epoch milliseconds, and `Date.now()`
  is the environment's `nowMs`.  Within a single engine operation the source
  may call `new Date().toISOString()` several times; the model uses the single
  environment value `nowIsoStr` for all of them.
* Impure inputs (random uuids from `crypto.randomUUID`, the Ajv schema
  validators loaded from the schema files, clock readings) are fields of an
  explicit `Env` record that every operation takes as its first argument.
* JavaScript objects used as string-keyed dictionaries are modelled as
  insertion-ordered association lists (`List (String × α)`); assignment
  replaces an existing binding in place and otherwise appends, and `delete`
  removes the binding, exactly like JS objects with non-integer-like keys.
* Side files that no claim inspects (the DLQ line log written on validation
  failure, the learning-events log) are noted in comments but not threaded
  through the state; audit-log appends ARE modelled (returned as a list of
  appended lines) because the projection claims depend on them.
* `sha256` is modelled as an injective fingerprint (the identity on strings):
  the source only ever compares digests of strings for equality, so under the
  standard collision-freeness assumption the two behave identically.
-/

/-- JSON values, the type of `candidate_value` payloads. -/
inductive Json where
  | null : Json
  | bool (b : Bool) : Json
  | num (q : ℚ) : Json
  | str (s : String) : Json
  | arr (items : List Json) : Json
  | obj (fields : List (String × Json)) : Json

/-- The JS test `value === null`. -/
def Json.isNull : Json → Bool
  | Json.null => true
  | _ => false

/-- JS `Math.round`: round half toward positive infinity. -/
def jsRound (q : ℚ) : ℤ := ⌊q + 1/2⌋

/-- Source `clamp(value, min, max) = Math.min(Math.max(value, min), max)`. -/
def clamp (value lo hi : ℚ) : ℚ := min (max value lo) hi

/-- Source `round3(value) = Math.round(value * 1000) / 1000`. -/
def round3 (value : ℚ) : ℚ := (jsRound (value * 1000) : ℚ) / 1000

/-- Lookup in an insertion-ordered JS-style object. -/
def jsObjGet {α : Type} (m : List (String × α)) (k : String) : Option α :=
  match m.find? (fun kv => kv.1 == k) with
  | some kv => some kv.2
  | none => none

/-- JS-style assignment `m[k] = v`: replace in place, else append. -/
def jsObjSet {α : Type} (m : List (String × α)) (k : String) (v : α) :
    List (String × α) :=
  match m with
  | [] => [(k, v)]
  | kv :: rest =>
      if kv.1 == k then (k, v) :: rest else kv :: jsObjSet rest k v

/-- JS `delete m[k]`. -/
def jsObjDelete {α : Type} (m : List (String × α)) (k : String) :
    List (String × α) :=
  match m with
  | [] => []
  | kv :: rest =>
      if kv.1 == k then rest else kv :: jsObjDelete rest k

/-- Keys of a JS object in insertion order (`Object.keys`; all keys used by
the engine are non-integer-like strings, so JS preserves insertion order). -/
def jsObjKeys {α : Type} (m : List (String × α)) : List String := m.map (·.1)

/-- Values of a JS object in insertion order (`Object.values`). -/
def jsObjValues {α : Type} (m : List (String × α)) : List α := m.map (·.2)

/-- Lookup of a numeric table entry with JS `||` semantics: a missing key or a
falsy value (`0`) falls back to the default.  This is the translation of
expressions such as `state.source_reliability[t] || 0.5`. -/
def jsLookupNum (m : List (String × ℚ)) (k : String) (fallback : ℚ) : ℚ :=
  match jsObjGet m k with
  | some v => if v = 0 then fallback else v
  | none => fallback

/-- Insertion sort used to model `Array.prototype.sort` with a comparator
(`le a b` = "a does not come after b").  JS sort order details beyond the
comparator (stability) do not matter for any claim. -/
def jsSortBy {α : Type} (le : α → α → Bool) : List α → List α
  | [] => []
  | x :: xs => jsSortInsert le x (jsSortBy le xs)
where
  jsSortInsert (le : α → α → Bool) (x : α) : List α → List α
    | [] => [x]
    | y :: ys => if le x y then x :: y :: ys else y :: jsSortInsert le x ys

/-- Code-unit comparison of strings (JS default string comparison; all strings
compared by the engine are ASCII timestamps / identifiers). -/
def strLe (a b : String) : Bool := charsLe a.toList b.toList
where
  charsLe : List Char → List Char → Bool
    | [], _ => true
    | _ :: _, [] => false
    | x :: xs, y :: ys =>
        if x = y then charsLe xs ys else decide (x.toNat ≤ y.toNat)

/-- Does `l` start with `pat`?  (List-level prefix test; used instead of the
byte-level core `String.startsWith`, which does not reduce definitionally.) -/
def charsStartWith : List Char → List Char → Bool
  | _, [] => true
  | [], _ :: _ => false
  | c :: cs, p :: ps => if c = p then charsStartWith cs ps else false

/-- JS `s.startsWith(pre)`. -/
def strStartsWith (s pre : String) : Bool := charsStartWith s.toList pre.toList

/-- JS `s.endsWith(suf)`. -/
def strEndsWith (s suf : String) : Bool :=
  charsStartWith s.toList.reverse suf.toList.reverse

/-- JS `s.toLowerCase()` for the ASCII tokens the bridge compares. -/
def asciiLower (s : String) : String :=
  String.mk (s.toList.map (fun c =>
    if 'A' ≤ c ∧ c ≤ 'Z' then Char.ofNat (c.toNat + 32) else c))

/-- Rendering of a rational for interpolation into audit lines and reason
strings (a deterministic stand-in for JS number-to-string conversion; no claim
inspects the rendered digits). -/
def qToString (q : ℚ) : String :=
  if q.den = 1 then toString q.num else toString q.num ++ "/" ++ toString q.den

mutual

/-- Minimal JSON rendering used by `stringifyValue` for non-string values (a
deterministic stand-in for `JSON.stringify`; no claim inspects the digits). -/
def jsonRender : Json → String
  | Json.null => "null"
  | Json.bool b => if b then "true" else "false"
  | Json.num q => qToString q
  | Json.str s => "\"" ++ s ++ "\""
  | Json.arr items => "[" ++ String.intercalate "," (jsonRenderList items) ++ "]"
  | Json.obj fields =>
      "\x7b" ++ String.intercalate "," (jsonRenderFields fields) ++ "\x7d"

def jsonRenderList : List Json → List String
  | [] => []
  | v :: rest => jsonRender v :: jsonRenderList rest

def jsonRenderFields : List (String × Json) → List String
  | [] => []
  | (k, v) :: rest => ("\"" ++ k ++ "\":" ++ jsonRender v) :: jsonRenderFields rest

end

/-- Source `stringifyValue`: a string passes through unchanged, any other
value is JSON-encoded. -/
def stringifyValue : Json → String
  | Json.str s => s
  | v => jsonRender v

/-- Source descriptor of an observation: `{type, ref}`. -/
structure SourceRef where
  type : String
  ref : String
deriving DecidableEq

/-- StateObservation input payloads. -/
structure StateObservation where
  event_id : String
  event_ts : String
  domain : String
  entity_id : String
  field : String
  candidate_value : Json
  intent : String
  source : SourceRef
  corroborators : List SourceRef

/-- UserConfirmation input payloads.  The source reads `confirmation.ts ||
nowIso()` and `confirmation.edited_value`; an absent `ts` is modelled as the
empty string (both `undefined` and `""` are falsy in JS). -/
structure UserConfirmation where
  prompt_id : String
  entity_id : String
  domain : String
  proposed_change : String
  confidence : ℚ
  reason_summary : List String
  action : String
  edited_value : Json
  ts : String

/-- A committed StateRecord stored per `(entity_id, domain, field)`. -/
structure StateRecord where
  value : Json
  last_update : String
  source : String
  confidence : ℚ
  event_id : String

/-- A stored PendingPrompt. -/
structure PendingPrompt where
  prompt_id : String
  entity_id : String
  domain : String
  proposed_change : String
  confidence : ℚ
  reason_summary : List String
  action : String
  observation_event : StateObservation
  source : SourceRef
  created_at : String

/-- A stored TentativeObservation. -/
structure TentativeObservation where
  observed_at : String
  event_id : String
  event_ts : String
  entity_id : String
  domain : String
  field : String
  candidate_value : Json
  intent : String
  source : SourceRef
  corroborators : List SourceRef
  confidence : ℚ
  reasons : List String
  promoted_at : String
  prompt_id : String

/-- Per-domain thresholds (`DOMAIN_DEFAULTS` rows; `calibration_remaining` is
carried but never read by the operations under study). -/
structure DomainCfg where
  ask_threshold : ℚ
  auto_threshold : ℚ
  margin_threshold : ℚ
deriving DecidableEq

/-- Counters of `learning_stats`. -/
structure LearningStats where
  auto_commits : ℕ
  auto_commit_corrections : ℕ
  ask_user_confirmations : ℕ
  user_confirms : ℕ
  user_rejects : ℕ
  user_edits : ℕ
deriving DecidableEq

/-- Field map of one domain of one entity: field key → StateRecord. -/
abbrev DomainState := List (String × StateRecord)

/-- State of one entity, `entities[eid].state`: domain → field map.  (The enclosing `{ state: … }`
wrapper object of the source is elided; `ensureEntityState` is modelled
directly on this representation.) -/
abbrev EntityState := List (String × DomainState)

/-- The `state.entities` map: entity id → entity state. -/
abbrev Entities := List (String × EntityState)

/-- The canonical document (the fields of `memory/state-tracker.json` that the
claims touch), as produced by `loadState` (all containers present). -/
structure EngineState where
  last_consistency_check : String
  domains : List (String × DomainCfg)
  source_reliability : List (String × ℚ)
  entities : Entities
  tentative_observations : List TentativeObservation
  pending_confirmations : List (String × PendingPrompt)
  processed_event_ids : List String
  learning_stats : LearningStats
  projection_hashes : List (String × String)

/-- The impure runtime environment of one engine operation: clock readings,
the uuid stream drawn from `crypto.randomUUID`, `Date.parse` and the Ajv
validators compiled from the JSON schema files. -/
structure Env where
  nowMs : ℤ
  nowIsoStr : String
  parseTs : String → Option ℤ
  uuids : ℕ → String
  validObservation : StateObservation → Bool
  validConfirmation : UserConfirmation → Bool

/-- Constant `MAX_PROCESSED_EVENT_IDS`. -/
def MAX_PROCESSED_EVENT_IDS : ℕ := 5000

/-- Constant `MAX_TENTATIVE_OBSERVATIONS`. -/
def MAX_TENTATIVE_OBSERVATIONS : ℕ := 1000

/-- Constant `DLQ_RETRY_SCHEDULE_MS = [60_000, 5*60_000, 30*60_000, 2*60*60_000]`. -/
def DLQ_RETRY_SCHEDULE_MS : List ℤ := [60000, 5 * 60000, 30 * 60000, 2 * 60 * 60000]

/-- Constant `DLQ_DEFAULT_MAX_RETRIES = DLQ_RETRY_SCHEDULE_MS.length + 1`. -/
def DLQ_DEFAULT_MAX_RETRIES : ℕ := DLQ_RETRY_SCHEDULE_MS.length + 1

/-- Table `DOMAIN_DEFAULTS`. -/
def DOMAIN_DEFAULTS : List (String × DomainCfg) :=
  [ ("travel", ⟨0.65, 0.9, 0.15⟩)
  , ("family", ⟨0.65, 0.9, 0.15⟩)
  , ("project", ⟨0.65, 0.9, 0.2⟩)
  , ("financial", ⟨0.7, 0.92, 0.2⟩)
  , ("profile", ⟨0.7, 0.95, 0.25⟩)
  , ("school", ⟨0.65, 0.9, 0.15⟩)
  , ("general", ⟨0.7, 0.92, 0.2⟩) ]

/-- Row `DOMAIN_DEFAULTS.general`, the fallback of `resolveDecision`. -/
def DOMAIN_DEFAULTS_general : DomainCfg := ⟨0.7, 0.92, 0.2⟩

/-- Table `SOURCE_RELIABILITY_DEFAULTS`. -/
def SOURCE_RELIABILITY_DEFAULTS : List (String × ℚ) :=
  [ ("conversation_assertive", 0.9)
  , ("conversation_planning", 0.75)
  , ("calendar_poll", 0.85)
  , ("calendar_webhook", 0.9)
  , ("email_poll", 0.84)
  , ("email_webhook", 0.88)
  , ("transactions_email", 0.88)
  , ("static_markdown", 0.6)
  , ("manual_markdown", 0.75)
  , ("system_migration", 0.72)
  , ("user_confirmation", 1) ]

/-- Table `INTENT_FACTORS`. -/
def INTENT_FACTORS : List (String × ℚ) :=
  [ ("assertive", 1)
  , ("planning", 0.72)
  , ("hypothetical", 0.45)
  , ("historical", 0.68)
  , ("retract", 0.95) ]

/-- Source `pushProcessedEventId`: append if absent, then evict from the front
down to the cap. -/
def pushProcessedEventId (ids : List String) (eventId : String) : List String :=
  if eventId ∈ ids then ids
  else
    let ids' := ids ++ [eventId]
    if MAX_PROCESSED_EVENT_IDS < ids'.length then
      ids'.drop (ids'.length - MAX_PROCESSED_EVENT_IDS)
    else ids'

/-- Source `fieldKeyFromObservation`: strip the `"<domain>."` prefix. -/
def fieldKeyFromObservation (o : StateObservation) : String :=
  let pre := o.domain ++ "."
  if strStartsWith o.field pre then o.field.drop pre.length else o.field

/-- Source `getCurrentFieldConfidence`: confidence of the committed record for
the observation's `(entity_id, domain, field)`, `0` if none. -/
def getCurrentFieldConfidence (state : EngineState) (o : StateObservation) : ℚ :=
  match jsObjGet state.entities o.entity_id with
  | none => 0
  | some entity =>
      match jsObjGet entity o.domain with
      | none => 0
      | some domainState =>
          match jsObjGet domainState (fieldKeyFromObservation o) with
          | none => 0
          | some record => record.confidence

/-- Source `recencyFactor`.  `Date.parse` failing (`none`) yields `0.5`;
otherwise a linear decay from 1.0 to 0.4 over 168 hours, clamped. -/
def recencyFactor (nowMs : ℤ) (eventMs : Option ℤ) : ℚ :=
  match eventMs with
  | none => 0.5
  | some ms =>
      let ageHours : ℚ := max 0 (((nowMs - ms : ℤ) : ℚ) / (1000 * 60 * 60))
      let decayed := 1 - (min ageHours 168) / 168 * 0.6
      clamp decayed 0.4 1

/-- Result record of `computeConfidence`. -/
structure ConfidenceAnalysis where
  confidence : ℚ
  source : ℚ
  intent : ℚ
  recency : ℚ
  corroboration : ℚ
deriving DecidableEq

/-- Source `computeConfidence`.  Note both table lookups use JS `|| 0.5`:
a missing key — or a stored factor equal to 0 — falls back to `0.5`. -/
def computeConfidence (env : Env) (state : EngineState) (o : StateObservation) :
    ConfidenceAnalysis :=
  let source := jsLookupNum state.source_reliability o.source.type 0.5
  let intent := jsLookupNum INTENT_FACTORS o.intent 0.5
  let recency := recencyFactor env.nowMs (env.parseTs o.event_ts)
  let corroborationCount : ℕ := o.corroborators.length
  let corroboration := clamp (1 + (corroborationCount : ℚ) * 0.05) 1 1.2
  let confidence := clamp (source * intent * recency * corroboration) 0 1
  { confidence := round3 confidence
    source := source
    intent := intent
    recency := recency
    corroboration := corroboration }

/-- Result record of `resolveDecision`. -/
structure DecisionMeta where
  decision : String
  margin : ℚ
  reasons : List String
deriving DecidableEq

/-- Source `resolveDecision`: `force_commit` short-circuits to auto-commit;
otherwise auto-commit needs `confidence ≥ auto_threshold` AND
`margin ≥ margin_threshold` (both comparisons non-strict), ask-user needs
`confidence ≥ ask_threshold`, and everything else is a tentative reject.  The
domain config falls back to `DOMAIN_DEFAULTS.general` for unknown domains. -/
def resolveDecision (state : EngineState) (o : StateObservation)
    (analysis : ConfidenceAnalysis) (forceCommit : Bool) : DecisionMeta :=
  if forceCommit then
    { decision := "auto_commit", margin := 1, reasons := ["force_commit=true"] }
  else
    let domainCfg := (jsObjGet state.domains o.domain).getD DOMAIN_DEFAULTS_general
    let currentConfidence := getCurrentFieldConfidence state o
    let margin := round3 (analysis.confidence - currentConfidence)
    if domainCfg.auto_threshold ≤ analysis.confidence ∧
        domainCfg.margin_threshold ≤ margin then
      { decision := "auto_commit"
        margin := margin
        reasons :=
          [ "confidence(" ++ qToString analysis.confidence ++ ") >= auto_threshold(" ++
              qToString domainCfg.auto_threshold ++ ")"
          , "margin(" ++ qToString margin ++ ") >= margin_threshold(" ++
              qToString domainCfg.margin_threshold ++ ")" ] }
    else if domainCfg.ask_threshold ≤ analysis.confidence then
      { decision := "ask_user"
        margin := margin
        reasons :=
          [ "confidence(" ++ qToString analysis.confidence ++ ") >= ask_threshold(" ++
              qToString domainCfg.ask_threshold ++ ")"
          , "confidence below auto-threshold or insufficient margin" ] }
    else
      { decision := "tentative_reject"
        margin := margin
        reasons :=
          [ "confidence(" ++ qToString analysis.confidence ++ ") < ask_threshold(" ++
              qToString domainCfg.ask_threshold ++ ")" ] }

/-- Result of `applyCommittedObservation`. -/
structure CommitResult where
  fieldKey : String
  retracted : Bool
deriving DecidableEq

/-- Source `ensureEntityState` followed by an update of the domain's field map,
covering the source's mutation of `state.entities[eid].state[domain]`. -/
def updateDomainState (entities : Entities) (entityId domain : String)
    (f : DomainState → DomainState) : Entities :=
  let entity := (jsObjGet entities entityId).getD []
  let domainState := (jsObjGet entity domain).getD []
  jsObjSet entities entityId (jsObjSet entity domain (f domainState))

/-- Source `applyCommittedObservation`: a `retract` intent OR a `null`
candidate value deletes the `(entity_id, domain, field)` record; anything else
writes a fresh StateRecord carrying the observation's `event_id`. -/
def applyCommittedObservation (entities : Entities) (o : StateObservation)
    (confidence : ℚ) : Entities × CommitResult :=
  let fieldKey := fieldKeyFromObservation o
  if o.intent = "retract" ∨ o.candidate_value.isNull then
    (updateDomainState entities o.entity_id o.domain
        (fun ds => jsObjDelete ds fieldKey),
      { fieldKey := fieldKey, retracted := true })
  else
    (updateDomainState entities o.entity_id o.domain
        (fun ds => jsObjSet ds fieldKey
          { value := o.candidate_value
            last_update := o.event_ts
            source := o.source.type
            confidence := round3 confidence
            event_id := o.event_id }),
      { fieldKey := fieldKey, retracted := false })

/-- Source `createPendingPrompt`; the random uuid and `nowIso()` reading are
passed in explicitly. -/
def createPendingPrompt (promptId nowIsoStr : String) (o : StateObservation)
    (decisionReasons : List String) (analysisConfidence : ℚ) : PendingPrompt :=
  { prompt_id := promptId
    entity_id := o.entity_id
    domain := o.domain
    proposed_change := o.field ++ " -> " ++ stringifyValue o.candidate_value
    confidence := analysisConfidence
    reason_summary := decisionReasons.take 5
    action := "confirm"
    observation_event := o
    source := o.source
    created_at := nowIsoStr }

/-- Source `pushTentativeObservation`: append, then evict from the front down
to the cap. -/
def pushTentativeObservation (tentatives : List TentativeObservation)
    (nowIsoStr : String) (o : StateObservation) (confidence : ℚ)
    (reasons : List String) : List TentativeObservation :=
  let tentatives' := tentatives ++
    [ { observed_at := nowIsoStr
        event_id := o.event_id
        event_ts := o.event_ts
        entity_id := o.entity_id
        domain := o.domain
        field := o.field
        candidate_value := o.candidate_value
        intent := o.intent
        source := o.source
        corroborators := o.corroborators
        confidence := round3 confidence
        reasons := reasons
        promoted_at := ""
        prompt_id := "" } ]
  if MAX_TENTATIVE_OBSERVATIONS < tentatives'.length then
    tentatives'.drop (tentatives'.length - MAX_TENTATIVE_OBSERVATIONS)
  else tentatives'

/-- Result shape returned by `ingestObservation` (the fields of the source's
ad-hoc return objects that the claims inspect). -/
structure IngestResult where
  status : String
  confidence : ℚ
  margin : ℚ
  reasons : List String
  prompt : Option PendingPrompt

/-- One engine operation's effect: the canonical document after the
operation, the returned result, and the audit lines appended by
`logStateChange` (each already carrying its `"- <iso> | "` prefix). -/
structure IngestOutcome where
  state : EngineState
  result : IngestResult
  audit : List String

/-- Source `logStateChange`: prepend the `"- <iso> | "` bullet prefix. -/
def logStateChangeLine (nowIsoStr line : String) : String :=
  "- " ++ nowIsoStr ++ " | " ++ line

/-- Source `saveState`: every persisted mutation stamps
`last_consistency_check` (the atomic file write itself is outside the model). -/
def saveStamp (env : Env) (state : EngineState) : EngineState :=
  { state with last_consistency_check := env.nowIsoStr }

/-- Source `ingestObservation`.  Validation failure quarantines the payload in
the DLQ side file (not part of `EngineState`) and returns `validation_failed`;
a known `event_id` returns `duplicate` before any mutation; otherwise the
event id is recorded first and exactly one of the three decision branches
mutates the document. -/
def ingestObservation (env : Env) (state : EngineState) (o : StateObservation)
    (forceCommit : Bool) : IngestOutcome :=
  if env.validObservation o then
    if o.event_id ∈ state.processed_event_ids then
      { state := state
        result := { status := "duplicate", confidence := 0, margin := 0
                    reasons := [], prompt := none }
        audit := [] }
    else
      let analysis := computeConfidence env state o
      let decisionMeta := resolveDecision state o analysis forceCommit
      let state1 :=
        { state with
            processed_event_ids :=
              pushProcessedEventId state.processed_event_ids o.event_id }
      if decisionMeta.decision = "auto_commit" then
        let commitPair := applyCommittedObservation state1.entities o analysis.confidence
        let state2 := saveStamp env
          { state1 with
              entities := commitPair.1
              learning_stats :=
                { state1.learning_stats with
                    auto_commits := state1.learning_stats.auto_commits + 1 } }
        { state := state2
          result := { status := "committed", confidence := analysis.confidence
                      margin := decisionMeta.margin, reasons := decisionMeta.reasons
                      prompt := none }
          audit := [logStateChangeLine env.nowIsoStr
            (o.event_id ++ " | decision=auto_commit | " ++ o.entity_id ++ "/" ++
              o.domain ++ "." ++ commitPair.2.fieldKey ++ " | value=" ++
              stringifyValue o.candidate_value ++ " | confidence=" ++
              qToString analysis.confidence ++ " | source=" ++ o.source.type)] }
      else if decisionMeta.decision = "ask_user" then
        let prompt := createPendingPrompt (env.uuids 0) env.nowIsoStr o
          decisionMeta.reasons analysis.confidence
        let state2 := saveStamp env
          { state1 with
              pending_confirmations :=
                jsObjSet state1.pending_confirmations prompt.prompt_id prompt }
        { state := state2
          result := { status := "pending_confirmation", confidence := analysis.confidence
                      margin := decisionMeta.margin, reasons := decisionMeta.reasons
                      prompt := some prompt }
          audit := [logStateChangeLine env.nowIsoStr
            (o.event_id ++ " | decision=ask_user | prompt_id=" ++ prompt.prompt_id ++
              " | " ++ o.entity_id ++ "/" ++ o.field ++ " | confidence=" ++
              qToString analysis.confidence)] }
      else
        let state2 := saveStamp env
          { state1 with
              tentative_observations :=
                pushTentativeObservation state1.tentative_observations
                  env.nowIsoStr o analysis.confidence decisionMeta.reasons }
        { state := state2
          result := { status := "tentative", confidence := analysis.confidence
                      margin := decisionMeta.margin, reasons := decisionMeta.reasons
                      prompt := none }
          audit := [logStateChangeLine env.nowIsoStr
            (o.event_id ++ " | decision=tentative_reject | " ++ o.entity_id ++ "/" ++
              o.field ++ " | confidence=" ++ qToString analysis.confidence)] }
  else
    { state := state
      result := { status := "validation_failed", confidence := 0, margin := 0
                  reasons := [], prompt := none }
      audit := [] }

/-- The observation synthesized by `applyUserConfirmation` for a confirm/edit
action: fresh random `event_id`, confirmation timestamp, `assertive` intent,
the edited value for `edit`, and a `user_confirmation` source. -/
def synthesizedObservation (env : Env) (c : UserConfirmation)
    (pending : PendingPrompt) : StateObservation :=
  let confirmationTs := if c.ts = "" then env.nowIsoStr else c.ts
  { pending.observation_event with
      event_id := env.uuids 0
      event_ts := confirmationTs
      intent := "assertive"
      candidate_value :=
        if c.action = "edit" then c.edited_value
        else pending.observation_event.candidate_value
      source := { type := "user_confirmation", ref := "prompt:" ++ c.prompt_id } }

/-- Result shape of `applyUserConfirmation`. -/
structure ConfirmResult where
  status : String
  prompt_id : String
  action : String
  committed_event_id : String

/-- Outcome of `applyUserConfirmation`. -/
structure ConfirmOutcome where
  state : EngineState
  result : ConfirmResult
  audit : List String

/-- Source `applyUserConfirmation`.  After schema validation and the
not-found / mismatch lookups, the prompt is deleted; `reject` stops there,
while `confirm`/`edit` synthesize a fresh observation and commit it directly
via `applyCommittedObservation` — with no call to `resolveDecision` and no
lookup or update of `processed_event_ids`.  (The learning-event append goes to
a side file outside `EngineState`.) -/
def applyUserConfirmation (env : Env) (state : EngineState)
    (c : UserConfirmation) : ConfirmOutcome :=
  if env.validConfirmation c then
    match jsObjGet state.pending_confirmations c.prompt_id with
    | none =>
        { state := state
          result := { status := "not_found", prompt_id := c.prompt_id
                      action := c.action, committed_event_id := "" }
          audit := [] }
    | some pending =>
        if pending.entity_id ≠ c.entity_id ∨ pending.domain ≠ c.domain then
          { state := state
            result := { status := "mismatch", prompt_id := c.prompt_id
                        action := c.action, committed_event_id := "" }
            audit := [] }
        else
          let state1 :=
            { state with
                learning_stats :=
                  { state.learning_stats with
                      ask_user_confirmations :=
                        state.learning_stats.ask_user_confirmations + 1 }
                pending_confirmations :=
                  jsObjDelete state.pending_confirmations c.prompt_id }
          if c.action = "reject" then
            let state2 := saveStamp env
              { state1 with
                  learning_stats :=
                    { state1.learning_stats with
                        user_rejects := state1.learning_stats.user_rejects + 1 } }
            { state := state2
              result := { status := "rejected", prompt_id := c.prompt_id
                          action := c.action, committed_event_id := "" }
              audit := [logStateChangeLine env.nowIsoStr
                ("prompt=" ++ c.prompt_id ++ " | action=reject | no state mutation")] }
          else
            let committedObservation := synthesizedObservation env c pending
            if env.validObservation committedObservation then
              let analysis := computeConfidence env state1 committedObservation
              let commitPair :=
                applyCommittedObservation state1.entities committedObservation
                  analysis.confidence
              let stats1 := state1.learning_stats
              let stats2 :=
                if c.action = "edit" then
                  { stats1 with user_edits := stats1.user_edits + 1 }
                else
                  { stats1 with user_confirms := stats1.user_confirms + 1 }
              let state2 := saveStamp env
                { state1 with entities := commitPair.1, learning_stats := stats2 }
              { state := state2
                result := { status := "committed", prompt_id := c.prompt_id
                            action := c.action
                            committed_event_id := committedObservation.event_id }
                audit := [logStateChangeLine env.nowIsoStr
                  ("prompt=" ++ c.prompt_id ++ " | action=" ++ c.action ++
                    " | committed=" ++ committedObservation.entity_id ++ "/" ++
                    committedObservation.domain ++ "." ++ commitPair.2.fieldKey ++
                    " | value=" ++ stringifyValue committedObservation.candidate_value)] }
            else
              -- the synthesized observation failed schema validation: the
              -- prompt stays deleted, the document is saved, a DLQ entry is
              -- written to the side file
              { state := saveStamp env state1
                result := { status := "validation_failed", prompt_id := c.prompt_id
                            action := c.action, committed_event_id := "" }
                audit := [] }
  else
    { state := state
      result := { status := "validation_failed", prompt_id := c.prompt_id
                  action := c.action, committed_event_id := "" }
      audit := [] }

/-- A folded DLQ entry (the fields of the line log that `retryDlqEntries`
reads; `payload_present` models the `entry.payload && entry.schema_name`
guard, and `next_retry_ts` is kept in epoch milliseconds). -/
structure DlqEntry where
  dlq_id : String
  schema_name : String
  payload_present : Bool
  first_seen_ts : String
  retry_count : ℕ
  next_retry_ts : Option ℤ
  status : String

/-- Source `computeDlqNextRetryTs`: `now + backoff[min(retry_count,
len(backoff)−1)]` (the source renders the sum as an ISO string; the model
keeps milliseconds). -/
def computeDlqNextRetryTs (nowMs : ℤ) (retryCount : ℕ) : ℤ :=
  nowMs + (DLQ_RETRY_SCHEDULE_MS.getD
    (min retryCount (DLQ_RETRY_SCHEDULE_MS.length - 1)) 0)

/-- Source `isDlqResolvedResult`. -/
def isDlqResolvedResult (schemaName resultStatus : String) : Bool :=
  if schemaName = "observation" then
    resultStatus ∈ ["committed", "pending_confirmation", "tentative", "duplicate"]
  else if schemaName = "confirmation" then
    resultStatus ∈ ["committed", "rejected"]
  else if schemaName = "signal" then
    resultStatus = "ok"
  else false

/-- Source `isDlqPermanentFailure`. -/
def isDlqPermanentFailure (resultStatus : String) : Bool :=
  resultStatus ∈ ["unsupported_schema", "not_found", "mismatch"]

/-- The update record appended to the DLQ log for one retried entry. -/
structure DlqUpdate where
  status : String
  retry_count : ℕ
  next_retry_ts : Option ℤ
  last_result_status : String

/-- The per-entry update of the `retryDlqEntries` loop body, as a function of
the dispatch result's status: `retry_count` is incremented once; a resolved
status closes the entry; a permanent-failure status or exhausted retries marks
it `failed_permanent`; otherwise it stays `pending_retry` with the next
backoff timestamp. -/
def retryDlqUpdate (nowMs : ℤ) (entry : DlqEntry) (resultStatus : String)
    (maxRetries : ℕ) : DlqUpdate :=
  let retryCount := entry.retry_count + 1
  if isDlqResolvedResult entry.schema_name resultStatus then
    { status := "resolved", retry_count := retryCount
      next_retry_ts := none, last_result_status := resultStatus }
  else if isDlqPermanentFailure resultStatus ∨ maxRetries ≤ retryCount then
    { status := "failed_permanent", retry_count := retryCount
      next_retry_ts := none, last_result_status := resultStatus }
  else
    { status := "pending_retry", retry_count := retryCount
      next_retry_ts := some (computeDlqNextRetryTs nowMs retryCount)
      last_result_status := resultStatus }

/-- The candidate selection of `retryDlqEntries`: only `pending_retry`
entries with a payload, only due ones unless `include_not_due`, oldest first,
at most `limit`. -/
def dlqCandidates (nowMs : ℤ) (includeNotDue : Bool) (limit : ℕ)
    (entries : List DlqEntry) : List DlqEntry :=
  ((entries.filter (fun e => e.status = "pending_retry")).filter
      (fun e => e.payload_present) |>.filter
      (fun e =>
        if includeNotDue then true
        else
          match e.next_retry_ts with
          | none => true   -- an unparsable/absent next_retry_ts counts as due
          | some ms => ms ≤ nowMs)
    |> jsSortBy (fun a b => strLe a.first_seen_ts b.first_seen_ts)).take limit

/-- Options of `promoteReviewQueue` with the source's falsy-default
coercions already applied by the caller-facing wrapper below. -/
structure PromoteOptions where
  min_confidence : Option ℚ
  limit : ℕ
  max_pending : ℕ
  entity_id : String
  domain : String

/-- Source `tentativeToObservation` (the `|| fallback` defaults fire on empty
strings, the JS falsy case for the string fields; a tentative with no stored
event id would receive a random uuid, modelled by the supplied fallback). -/
def tentativeToObservation (uuidFallback nowIsoStr : String)
    (t : TentativeObservation) : StateObservation :=
  { event_id := if t.event_id = "" then uuidFallback else t.event_id
    event_ts :=
      if t.event_ts = "" then (if t.observed_at = "" then nowIsoStr else t.observed_at)
      else t.event_ts
    domain := if t.domain = "" then "general" else t.domain
    entity_id := if t.entity_id = "" then "user:primary" else t.entity_id
    field := if t.field = "" then "general.note" else t.field
    candidate_value := t.candidate_value
    intent := if t.intent = "" then "assertive" else t.intent
    source := t.source
    corroborators := t.corroborators }

/-- The pending-prompt count `promoteReviewQueue` compares against the cap:
pending prompts filtered by the optional entity/domain filter. -/
def countPendingFiltered (pending : List (String × PendingPrompt))
    (entityId domain : String) : ℕ :=
  ((jsObjValues pending).filter (fun p =>
    (entityId = "" ∨ p.entity_id = entityId) ∧
    (domain = "" ∨ p.domain = domain))).length

/-- The eligible tentatives of `promoteReviewQueue`: not yet promoted,
matching the filter, confident enough, and not already referenced by a
pending prompt's `observation_event.event_id`. -/
def promoteEligible (state : EngineState) (minConfidence : ℚ)
    (entityId domain : String) : List TentativeObservation :=
  let pendingOriginIds :=
    ((jsObjValues state.pending_confirmations).map
      (fun p => p.observation_event.event_id)).filter (fun e => e ≠ "")
  ((((state.tentative_observations.filter (fun t => t.promoted_at = "")).filter
      (fun t => entityId = "" ∨ t.entity_id = entityId)).filter
      (fun t => domain = "" ∨ t.domain = domain)).filter
      (fun t => minConfidence ≤ t.confidence)).filter
      (fun t => t.event_id ∉ pendingOriginIds)

/-- Result summary of `promoteReviewQueue`. -/
structure PromoteSummary where
  status : String
  promoted_count : ℕ
  pending_count : ℕ
  max_pending : ℕ
  reason : String

/-- Promotion loop of `promoteReviewQueue`: each candidate becomes a pending
prompt (fresh uuid per candidate) and the tentative is stamped
`promoted_at`/`prompt_id`.  The source mutates the candidate objects in
place; the model re-identifies them in the stored list by `event_id` (the
candidates are drawn from that list and carry distinct content-derived ids by
construction of the engine's producers). -/
def promoteLoop (env : Env) (state : EngineState) :
    List TentativeObservation → ℕ → EngineState × ℕ
  | [], _ => (state, 0)
  | item :: rest, i =>
      let observation := tentativeToObservation (env.uuids i) env.nowIsoStr item
      let reasons := "promoted_from_tentative_review_queue" :: item.reasons
      let prompt := createPendingPrompt (env.uuids i) env.nowIsoStr observation
        reasons item.confidence
      let state' :=
        { state with
            pending_confirmations :=
              jsObjSet state.pending_confirmations prompt.prompt_id prompt
            tentative_observations :=
              state.tentative_observations.map (fun t =>
                if t.event_id = item.event_id then
                  { t with promoted_at := env.nowIsoStr, prompt_id := prompt.prompt_id }
                else t) }
      let next := promoteLoop env state' rest (i + 1)
      (next.1, next.2 + 1)

/-- Source `promoteReviewQueue`.  The source coerces its options with
`Math.max(1, Number(x || default))`; the wrapper applies the same floors.
The `runtime.last_review_queue_at` stamp and the per-promotion
`review_queue_promoted` audit lines (side effects no claim inspects) are
elided. -/
def promoteReviewQueue (env : Env) (state : EngineState)
    (options : PromoteOptions) : EngineState × PromoteSummary :=
  let minConfidence := options.min_confidence.getD 0.4
  let limit := max 1 (if options.limit = 0 then 5 else options.limit)
  let maxPending := max 1 (if options.max_pending = 0 then 10 else options.max_pending)
  let entityId := options.entity_id
  let domain := options.domain
  let currentPendingCount :=
    countPendingFiltered state.pending_confirmations entityId domain
  let remainingSlots := maxPending - currentPendingCount
  if remainingSlots = 0 then
    (saveStamp env state,
      { status := "ok", promoted_count := 0, pending_count := currentPendingCount
        max_pending := maxPending, reason := "pending_limit_reached" })
  else
    let candidates :=
      (jsSortBy (fun a b =>
          if a.confidence ≠ b.confidence then decide (b.confidence ≤ a.confidence)
          else strLe a.observed_at b.observed_at)
        (promoteEligible state minConfidence entityId domain)).take
        (min limit remainingSlots)
    let looped := promoteLoop env state candidates 0
    (saveStamp env looped.1,
      { status := "ok", promoted_count := looped.2
        pending_count := currentPendingCount + looped.2
        max_pending := maxPending, reason := "" })

/-- JS `\s` whitespace for the texts the bridge processes (ASCII subset;
the bridge's inputs are chat message texts). -/
def isJsWhitespace (c : Char) : Bool :=
  c = ' ' ∨ c = '\t' ∨ c = '\n' ∨ c = '\r' ∨ c = '\x0c' ∨ c = '\x0b'

/-- Collapse every whitespace run to a single space
(`.replace(/\s+/g, " ")`); the boolean records whether the previous character
belonged to a whitespace run. -/
def collapseWhitespaceAux : Bool → List Char → List Char
  | _, [] => []
  | prevWs, c :: rest =>
      if isJsWhitespace c then
        if prevWs then collapseWhitespaceAux true rest
        else ' ' :: collapseWhitespaceAux true rest
      else c :: collapseWhitespaceAux false rest

/-- Collapse every whitespace run to a single space
(`.replace(/\s+/g, " ")`). -/
def collapseWhitespace (chars : List Char) : List Char :=
  collapseWhitespaceAux false chars

/-- Bridge `normalizeInboundText`: collapse whitespace runs, then trim. -/
def normalizeInboundText (input : String) : String :=
  let collapsed := collapseWhitespace input.toList
  String.mk ((collapsed.dropWhile (· = ' ')).reverse.dropWhile (· = ' ') |>.reverse)

/-- Bridge `parseNaturalConfirmationAction`: lower-case the normalized text,
strip trailing `.`/`!`, and match against the bare confirm/reject tokens. -/
def parseNaturalConfirmationAction (input : String) : String :=
  let token := String.mk
    (((asciiLower (normalizeInboundText input)).toList.reverse.dropWhile
      (fun c => c = '.' ∨ c = '!')).reverse)
  if token = "" then ""
  else if token ∈ ["yes", "y", "yep", "yeah", "confirm", "confirmed", "correct", "true"] then
    "confirm"
  else if token ∈ ["no", "n", "nope", "nah", "reject", "rejected", "incorrect", "false"] then
    "reject"
  else ""

/-- Bridge `shouldSkipInboundAssertion`: skip empty texts, `/`-commands,
texts below the minimum length, texts with no ASCII letter, and texts ending
in `?`. -/
def shouldSkipInboundAssertion (text : String) (minChars : ℕ) : Bool :=
  if text = "" then true
  else if strStartsWith text "/" then true
  else if text.length < minChars then true
  else if ¬ text.toList.any (fun c =>
      ('a' ≤ c ∧ c ≤ 'z') ∨ ('A' ≤ c ∧ c ≤ 'Z')) then true
  else if strEndsWith text "?" then true
  else false

/-- Bridge `sortPending`: pending prompts by `created_at` ascending. -/
def sortPending (pending : List (String × PendingPrompt)) : List PendingPrompt :=
  jsSortBy (fun a b => strLe a.created_at b.created_at) (jsObjValues pending)

/-- Bridge `resolvePromptId` (errors collapsed to `none`): an explicit
reference resolves exactly or by unique case-insensitive prefix; otherwise the
runtime state's active prompt wins, falling back to the oldest pending. -/
def resolvePromptId (pending : List (String × PendingPrompt))
    (promptRef activePromptId : String) : Option String :=
  if pending.isEmpty then none
  else if promptRef ≠ "" then
    if (jsObjGet pending promptRef).isSome then some promptRef
    else
      match (jsObjKeys pending).filter
          (fun id => strStartsWith (asciiLower id) (asciiLower promptRef)) with
      | [id] => some id
      | _ => none     -- not found, or ambiguous prefix: an error reply
  else if activePromptId ≠ "" ∧ (jsObjGet pending activePromptId).isSome then
    some activePromptId
  else
    (sortPending pending).head?.map (fun p => p.prompt_id)

/-- Bridge `summarizeValue` (whitespace-collapsed display text, truncated to
180 chars with an ellipsis). -/
def summarizeValue (value : Json) : String :=
  let text := match value with
    | Json.str s => s
    | v => jsonRender v
  let compact := normalizeInboundText text
  if compact.length ≤ 180 then compact
  else compact.take 179 ++ "…"

/-- The confirmation object `runConfirmFlow` builds before invoking
`applyUserConfirmation` (the `|| fallback` defaults fire on empty strings). -/
def runConfirmFlowConfirmation (nowIsoStr : String) (promptId : String)
    (pending : PendingPrompt) (action : String) (editedValue : Json) :
    UserConfirmation :=
  { prompt_id := promptId
    entity_id := if pending.entity_id = "" then "user:primary" else pending.entity_id
    domain := if pending.domain = "" then "general" else pending.domain
    proposed_change :=
      if pending.proposed_change = "" then
        pending.observation_event.field ++ " -> " ++
          summarizeValue pending.observation_event.candidate_value
      else pending.proposed_change
    confidence := pending.confidence
    reason_summary := pending.reason_summary
    action := action
    edited_value := editedValue
    ts := nowIsoStr }

/-- What the `message_received` hook of the bridge did with one inbound
message. -/
inductive InboundOutcome where
  | emptyText : InboundOutcome
  | resolvedDecision (action promptId : String) (outcome : ConfirmOutcome) : InboundOutcome
  | skippedByRules : InboundOutcome
  | skippedPendingCap (pendingCount : ℕ) : InboundOutcome
  | ingested (outcome : IngestOutcome) : InboundOutcome

/-- The `message_received` handler of the bridge, from the point where the
channel/sender/self guards have passed and the engine runtime is loaded.  The
construction of the synthesized observation (`buildInboundObservation`: uuid5
fingerprint, intent classifier, timestamp coercion) is environment-dependent
and is abstracted as the `observation` argument; no claim inspects its
fields.  Order of operations, exactly as in the source: normalize text and
bail on empty, `maybeApplyNaturalDecision` (which resolves the active — or
oldest — pending prompt through `applyUserConfirmation` whenever the text
parses as a bare yes/no), only then `shouldSkipInboundAssertion`, then the
pending cap, then `ingestObservation`. -/
def messageReceived (env : Env) (state : EngineState)
    (activePromptId : String) (ingestMinChars ingestMaxPending : ℕ)
    (rawText : String) (observation : StateObservation) : InboundOutcome :=
  let text := normalizeInboundText rawText
  if text = "" then InboundOutcome.emptyText
  else
    -- maybeApplyNaturalDecision
    let action := parseNaturalConfirmationAction text
    let naturalResolution :=
      if action = "" then none
      else
        match resolvePromptId state.pending_confirmations "" activePromptId with
        | none => none
        | some promptId =>
            match jsObjGet state.pending_confirmations promptId with
            | none => none
            | some pending => some (promptId, pending)
    match naturalResolution with
    | some (promptId, pending) =>
        let confirmation :=
          runConfirmFlowConfirmation env.nowIsoStr promptId pending action Json.null
        InboundOutcome.resolvedDecision action promptId
          (applyUserConfirmation env state confirmation)
    | none =>
        if shouldSkipInboundAssertion text ingestMinChars then
          InboundOutcome.skippedByRules
        else
          let pendingCount := (jsObjKeys state.pending_confirmations).length
          if ingestMaxPending ≤ pendingCount then
            InboundOutcome.skippedPendingCap pendingCount
          else
            InboundOutcome.ingested (ingestObservation env state observation false)

/-- First index at or after `i` where `pat` occurs in `l`
(JS `String.prototype.indexOf`, `none` for `-1`). -/
def charsIndexOfAux (pat : List Char) : List Char → ℕ → Option ℕ
  | [], i => if pat.isEmpty then some i else none
  | c :: cs, i =>
      if charsStartWith (c :: cs) pat then some i
      else charsIndexOfAux pat cs (i + 1)

/-- JS `text.indexOf(pat)` (character positions; all projection texts and
markers are such that the positions are only ever used to slice the same
text, so the unit of measurement cancels out). -/
def strIndexOf (text pat : String) : Option ℕ :=
  charsIndexOfAux pat.toList text.toList 0

/-- JS `text.slice(i, j)` for `0 ≤ i ≤ j`. -/
def strSlice (text : String) (i j : ℕ) : String :=
  String.mk ((text.toList.take j).drop i)

/-- JS `text.slice(i)`. -/
def strSliceFrom (text : String) (i : ℕ) : String :=
  String.mk (text.toList.drop i)

/-- JS `String.prototype.trimEnd`. -/
def jsTrimEnd (text : String) : String :=
  String.mk (text.toList.reverse.dropWhile isJsWhitespace).reverse

/-- Split on `\r?\n` (the audit log is written with bare `\n`). -/
def splitLinesChars : List Char → List (List Char)
  | [] => [[]]
  | '\n' :: rest => [] :: splitLinesChars rest
  | '\r' :: '\n' :: rest => [] :: splitLinesChars rest
  | c :: rest =>
      match splitLinesChars rest with
      | [] => [[c]]
      | line :: lines => (c :: line) :: lines

/-- JS `text.split(/\r?\n/)`. -/
def splitLines (text : String) : List String :=
  (splitLinesChars text.toList).map String.mk

/-- SHA-256 digests, modelled as an injective fingerprint (the identity):
the source only compares digests of strings for equality. -/
def sha256 (text : String) : String := text

/-- Source `zoneMarkers(zoneId).start`. -/
def zoneMarkerBegin (zoneId : String) : String :=
  "<!-- STATE:BEGIN zone_id=" ++ zoneId ++ " schema=v1 -->"

/-- Source `zoneMarkers(zoneId).end`. -/
def zoneMarkerEnd (zoneId : String) : String :=
  "<!-- STATE:END zone_id=" ++ zoneId ++ " -->"

/-- Source `buildSectionBlock`: heading, blank, begin marker, trimmed body,
end marker, trailing newline. -/
def buildSectionBlock (heading zoneId body : String) : String :=
  String.intercalate "\n"
    [heading, "", zoneMarkerBegin zoneId, jsTrimEnd body, zoneMarkerEnd zoneId, ""]

/-- Strip a single leading `\n` (`.replace(/^\n/, "")`). -/
def stripOneLeadingNewline (text : String) : String :=
  match text.toList with
  | '\n' :: rest => String.mk rest
  | _ => text

/-- Strip a single trailing `\n` (`.replace(/\n$/, "")`; without the `m` flag
JS `$` anchors only at the very end). -/
def stripOneTrailingNewline (text : String) : String :=
  match text.toList.reverse with
  | '\n' :: rest => String.mk rest.reverse
  | _ => text

/-- The first match of the legacy heading pattern
`(^<heading>\n\n)([\s\S]*?)(?=\n##\s|$)` compiled with the `m` flag, as
`(matchStart, bodyStart, bodyEnd)`.  With the `m` flag the `$` alternative of
the lookahead succeeds at every position standing before a `\n` (and at the
very end), so the lazy body extends exactly to the first `\n` after the
`heading\n\n` prefix — or to the end of the string when none follows. -/
def legacyHeadingMatch (text heading : String) : Option (ℕ × ℕ × ℕ) :=
  let chars := text.toList
  let pat := (heading ++ "\n\n").toList
  match findStart chars pat 0 true with
  | none => none
  | some i =>
      let bodyStart := i + pat.length
      let tail := chars.drop bodyStart
      let bodyLen := (tail.takeWhile (fun c => c ≠ '\n')).length
      some (i, bodyStart, bodyStart + bodyLen)
where
  /-- first `i` with `pat` at a line start (`^` under the `m` flag). -/
  findStart : List Char → List Char → ℕ → Bool → Option ℕ
    | [], pat, i, atLineStart =>
        if atLineStart ∧ pat.isEmpty then some i else none
    | c :: cs, pat, i, atLineStart =>
        if atLineStart ∧ charsStartWith (c :: cs) pat then some i
        else findStart cs pat (i + 1) (c = '\n')

/-- Collapse every run of three or more `\n` to two
(`.replace(/\n{3,}/g, "\n\n")`); the counter carries the length of the
pending newline run, emitted capped at two when the run ends. -/
def collapseNewlineRunsAux : ℕ → List Char → List Char
  | n, [] => List.replicate (min n 2) '\n'
  | n, '\n' :: rest => collapseNewlineRunsAux (n + 1) rest
  | n, c :: rest =>
      List.replicate (min n 2) '\n' ++ c :: collapseNewlineRunsAux 0 rest

/-- Collapse every run of three or more `\n` to two
(`.replace(/\n{3,}/g, "\n\n")`). -/
def collapseNewlineRuns (chars : List Char) : List Char :=
  collapseNewlineRunsAux 0 chars

/-- Source `captureSectionBody`: prefer the marker-delimited zone (stripping
one leading and one trailing newline from the slice); fall back to the legacy
heading-anchored pattern (trimming the captured body).  `none` when neither
form is present (`{exists: false}`). -/
def captureSectionBody (text heading zoneId : String) : Option String :=
  match strIndexOf text (zoneMarkerBegin zoneId),
      strIndexOf text (zoneMarkerEnd zoneId) with
  | some startIdx, some endIdx =>
      if startIdx < endIdx then
        some (stripOneTrailingNewline (stripOneLeadingNewline
          (strSlice text (startIdx + (zoneMarkerBegin zoneId).length) endIdx)))
      else none
  | _, _ =>
      match legacyHeadingMatch text heading with
      | none => none
      | some (_, bodyStart, bodyEnd) =>
          some (jsTrimEnd (strSlice text bodyStart bodyEnd))

/-- Source `removeAllHeadingSections`: repeatedly delete the first legacy
heading match and collapse newline runs; each round strictly shortens the
text, so the character count bounds the rounds (the model's fuel).  The
result is `trimEnd`-ed exactly once more at the exit. -/
def removeAllHeadingSections (text heading : String) : String :=
  go text.length text
where
  go : ℕ → String → String
    | 0, out => jsTrimEnd out
    | fuel + 1, out =>
        match legacyHeadingMatch out heading with
        | none => jsTrimEnd out
        | some (matchStart, _, bodyEnd) =>
            go fuel (String.mk (collapseNewlineRuns
              ((out.toList.take matchStart) ++ (out.toList.drop bodyEnd))))

/-- One sorted row of the canonical-state section. -/
structure StableEntry where
  entity_id : String
  domain : String
  field : String
  record : StateRecord

/-- Source `toStableStateEntries`: entities, domains and fields each in
sorted key order, filtered by the optional entity filter. -/
def toStableStateEntries (state : EngineState) (entityFilter : String) :
    List StableEntry :=
  (jsSortBy strLe (jsObjKeys state.entities)).flatMap (fun entityId =>
    if entityFilter ≠ "" ∧ entityFilter ≠ entityId then []
    else
      match jsObjGet state.entities entityId with
      | none => []
      | some entity =>
          (jsSortBy strLe (jsObjKeys entity)).flatMap (fun domain =>
            match jsObjGet entity domain with
            | none => []
            | some fields =>
                (jsSortBy strLe (jsObjKeys fields)).filterMap (fun field =>
                  match jsObjGet fields field with
                  | none => none
                  | some record =>
                      some { entity_id := entityId, domain := domain
                             field := field, record := record })))

/-- Source `buildCanonicalStateSection`. -/
def buildCanonicalStateSection (state : EngineState) (entityFilter : String) :
    String :=
  let entries := toStableStateEntries state entityFilter
  let stateLines :=
    if entries.isEmpty then ["- No committed state yet."]
    else entries.map (fun e =>
      "- [" ++ e.entity_id ++ "] " ++ e.domain ++ "." ++ e.field ++ " = " ++
        stringifyValue e.record.value ++ " (confidence=" ++
        qToString e.record.confidence ++ ", source=" ++ e.record.source ++ ")")
  let pending := sortPending state.pending_confirmations
  let pendingLines :=
    if pending.isEmpty then ["- None"]
    else pending.map (fun p =>
      "- [" ++ p.prompt_id ++ "] [" ++ p.entity_id ++ "] " ++
        p.proposed_change ++ " (confidence=" ++ qToString p.confidence ++ ")")
  String.intercalate "\n"
    (["Machine-managed section. Edit state via ingestion/confirmation flows.",
      "", "### Active Canonical State"] ++ stateLines ++
     ["", "### Pending Confirmations"] ++ pendingLines) ++ "\n"

/-- Source `buildStateChangeLogSection` (reads the audit-log text). -/
def buildStateChangeLogSection (auditText : String) : String :=
  let lines := ((splitLines auditText).filter (fun l => strStartsWith l "- "))
  let lastLines := lines.drop (lines.length - 20)
  String.intercalate "\n"
    (["Most recent state decisions:", ""] ++
      (if lastLines.isEmpty then ["- No state changes yet."] else lastLines)) ++ "\n"

/-- Minimum of a list of found anchor positions. -/
def minPosition : List ℕ → Option ℕ
  | [] => none
  | i :: rest =>
      match minPosition rest with
      | none => some i
      | some j => some (min i j)

/-- Result of one projection run: the rewritten artifact, the audit lines
appended by drift detection, and the document with refreshed hashes. -/
structure ProjectionOutcome where
  text : String
  audit : List String
  state : EngineState

/-- The heading of the canonical-state zone. -/
def canonicalHeading : String := "## Canonical State (Machine Managed)"

/-- The heading of the change-log zone. -/
def changesHeading : String := "## State Change Log (Machine Managed)"

/-- Source `renderHeartbeatProjection`, as a function of the loaded document,
the audit-log text and the current artifact text.  The drift check compares
fingerprints of the recaptured in-file bodies against the persisted hashes
and the freshly rendered bodies; the rebuild truncates the artifact at the
first legacy anchor, removes heading-anchored sections, and appends the two
freshly built zone blocks. -/
def renderHeartbeatProjection (env : Env) (state : EngineState)
    (auditText heartbeatText : String) (entityFilter : String) :
    ProjectionOutcome :=
  let canonicalZoneId := "canonical_state"
  let changesZoneId := "state_change_log"
  let existingCanonical :=
    (captureSectionBody heartbeatText canonicalHeading canonicalZoneId).getD ""
  let existingChanges :=
    (captureSectionBody heartbeatText changesHeading changesZoneId).getD ""
  let nextCanonical := buildCanonicalStateSection state entityFilter
  let nextChanges := buildStateChangeLogSection auditText
  let canonicalHash := sha256 nextCanonical
  let changesHash := sha256 nextChanges
  let existingCanonicalHash := sha256 existingCanonical
  let existingChangesHash := sha256 existingChanges
  let oldCanonicalHash := (jsObjGet state.projection_hashes canonicalHeading).getD ""
  let oldChangesHash := (jsObjGet state.projection_hashes changesHeading).getD ""
  let audit1 :=
    if oldCanonicalHash ≠ "" ∧ existingCanonicalHash ≠ oldCanonicalHash ∧
        existingCanonicalHash ≠ canonicalHash then
      [logStateChangeLine env.nowIsoStr
        ("drift_detected | section=" ++ canonicalHeading ++ " | action=reconcile")]
    else []
  let audit2 :=
    if oldChangesHash ≠ "" ∧ existingChangesHash ≠ oldChangesHash ∧
        existingChangesHash ≠ changesHash then
      [logStateChangeLine env.nowIsoStr
        ("drift_detected | section=" ++ changesHeading ++ " | action=reconcile")]
    else []
  let legacyAnchors :=
    [ "## 🧠 Canonical State"
    , "## 🧾 State Change Log"
    , canonicalHeading
    , changesHeading
    , "Machine-managed section. Edit state via ingestion/confirmation flows."
    , "Most recent state decisions:"
    , zoneMarkerBegin canonicalZoneId
    , zoneMarkerEnd canonicalZoneId
    , zoneMarkerBegin changesZoneId
    , zoneMarkerEnd changesZoneId ]
  let anchorPositions := legacyAnchors.filterMap (strIndexOf heartbeatText)
  let truncated :=
    match minPosition anchorPositions with
    | none => heartbeatText
    | some firstAnchor => jsTrimEnd (strSlice heartbeatText 0 firstAnchor)
  let cleaned :=
    removeAllHeadingSections
      (removeAllHeadingSections truncated canonicalHeading) changesHeading
  let canonicalBlock := buildSectionBlock canonicalHeading canonicalZoneId nextCanonical
  let changesBlock := buildSectionBlock changesHeading changesZoneId nextChanges
  let finalText := cleaned ++ "\n\n" ++ canonicalBlock ++ "\n" ++ changesBlock ++ "\n"
  let state' := saveStamp env
    { state with
        projection_hashes :=
          jsObjSet (jsObjSet state.projection_hashes canonicalHeading canonicalHash)
            changesHeading changesHash }
  { text := finalText, audit := audit1 ++ audit2, state := state' }

/-! ## Concrete fixtures used by witnesses and counterexamples -/

/-- A concrete runtime environment: epoch-zero clock, a fixed fresh uuid,
trivially accepting validators (the payloads below are schema-shaped). -/
def envA : Env :=
  { nowMs := 0
    nowIsoStr := "2026-01-01T00:00:00.000Z"
    parseTs := fun _ => some 0
    uuids := fun _ => "fresh-uuid"
    validObservation := fun _ => true
    validConfirmation := fun _ => true }

/-- Zeroed learning counters. -/
def zeroStats : LearningStats := ⟨0, 0, 0, 0, 0, 0⟩

/-- A freshly bootstrapped canonical document (`createDefaultState`). -/
def stateA : EngineState :=
  { last_consistency_check := ""
    domains := DOMAIN_DEFAULTS
    source_reliability := SOURCE_RELIABILITY_DEFAULTS
    entities := []
    tentative_observations := []
    pending_confirmations := []
    processed_event_ids := []
    learning_stats := zeroStats
    projection_hashes := [] }

/-- Scenario S1's observation: an assertive travel fact. -/
def obsTahoe : StateObservation :=
  { event_id := "ev-1"
    event_ts := "2026-01-01T00:00:00.000Z"
    domain := "travel"
    entity_id := "user:primary"
    field := "travel.location"
    candidate_value := Json.str "Tahoe"
    intent := "assertive"
    source := ⟨"conversation_assertive", "thread:1:msg:1"⟩
    corroborators := [] }

/-- A stored pending prompt awaiting confirmation. -/
def promptP1 : PendingPrompt :=
  { prompt_id := "p1"
    entity_id := "user:primary"
    domain := "travel"
    proposed_change := "travel.alert -> Leave Friday"
    confidence := 0.7
    reason_summary := ["in review band"]
    action := "confirm"
    observation_event :=
      { event_id := "ev-orig"
        event_ts := "2026-01-01T00:00:00.000Z"
        domain := "travel"
        entity_id := "user:primary"
        field := "travel.alert"
        candidate_value := Json.str "Leave Friday"
        intent := "planning"
        source := ⟨"static_markdown", "doc:1"⟩
        corroborators := [] }
    source := ⟨"static_markdown", "doc:1"⟩
    created_at := "2026-01-01T00:00:00.000Z" }

/-- State `stateA` with the prompt `p1` pending and its originating event id
already processed (exactly the situation after an ask-user ingestion). -/
def statePendA : EngineState :=
  { stateA with
      pending_confirmations := [("p1", promptP1)]
      processed_event_ids := ["ev-orig"] }

/-- A confirm decision for prompt `p1`. -/
def confirmA : UserConfirmation :=
  { prompt_id := "p1"
    entity_id := "user:primary"
    domain := "travel"
    proposed_change := "travel.alert -> Leave Friday"
    confidence := 0.7
    reason_summary := ["in review band"]
    action := "confirm"
    edited_value := Json.null
    ts := "2026-01-02T00:00:00.000Z" }

/-- A committed travel record with confidence 0.85 (the margin-tie fixture:
a `user_confirmation`-sourced observation about the same field computes
confidence 1, so the margin is exactly `1 − 0.85 = 0.15`, the travel
domain's `margin_threshold`). -/
def stateTieA : EngineState :=
  { stateA with
      entities :=
        [("user:primary", [("travel", [("location",
          { value := Json.str "Reno"
            last_update := "2025-12-01T00:00:00.000Z"
            source := "conversation_assertive"
            confidence := 0.85
            event_id := "ev-0" })])])] }

/-- The tie observation: computed confidence 1 over `stateTieA`. -/
def obsTieA : StateObservation :=
  { obsTahoe with event_id := "ev-2", source := ⟨"user_confirmation", "prompt:x"⟩ }

/-- A reliability table in which a valid source type is configured with
reliability `0` (representable in the persisted document; `loadState` merges
the stored table over the defaults and keeps stored values). -/
def stateZeroRelA : EngineState :=
  { stateA with
      source_reliability :=
        jsObjSet SOURCE_RELIABILITY_DEFAULTS "conversation_assertive" 0 }

/-- An unpromoted tentative observation. -/
def tentA : TentativeObservation :=
  { observed_at := "2026-01-01T00:00:00.000Z"
    event_id := "ev-t"
    event_ts := "2026-01-01T00:00:00.000Z"
    entity_id := "user:primary"
    domain := "travel"
    field := "travel.note"
    candidate_value := Json.str "maybe Tahoe"
    intent := "hypothetical"
    source := ⟨"static_markdown", "doc:2"⟩
    corroborators := []
    confidence := 0.5
    reasons := ["below ask threshold"]
    promoted_at := ""
    prompt_id := "" }

/-- One pending prompt plus one eligible tentative (scenario S4). -/
def statePromoteA : EngineState :=
  { statePendA with tentative_observations := [tentA] }

/-- A due DLQ entry with one prior retry. -/
def dlqEntryA : DlqEntry :=
  { dlq_id := "d1"
    schema_name := "observation"
    payload_present := true
    first_seen_ts := "2026-01-01T00:00:00.000Z"
    retry_count := 1
    next_retry_ts := some 0
    status := "pending_retry" }

/-- A `null`-valued observation with a non-`retract` intent. -/
def obsNullA : StateObservation :=
  { obsTahoe with event_id := "ev-null", candidate_value := Json.null }

/-- A `retract` observation with a non-null value. -/
def obsRetractA : StateObservation :=
  { obsTahoe with event_id := "ev-retract", intent := "retract" }

/-! ## Spec-side definitions for the C4 refinement comparison -/

/-- Spec §4.3 `recency_factor`, written from the claim's words:
`clamp(1 − min(age_h,168)/168 · 0.6, 0.4, 1.0)` with
`age_h = max(0, (now − event_ts)/1h)`. -/
def spec_recency_factor (nowMs eventMs : ℤ) : ℚ :=
  let age_h : ℚ := max 0 (((nowMs - eventMs : ℤ) : ℚ) / (1000 * 60 * 60))
  clamp (1 - min age_h 168 / 168 * 0.6) 0.4 1.0

/-- Spec §4.3 `corroboration_factor = clamp(1 + 0.05 · n_corroborators, 1, 1.2)`. -/
def spec_corroboration_factor (n : ℕ) : ℚ :=
  clamp (1 + 0.05 * (n : ℚ)) 1 1.2

/-- Spec §4.3 `intent_factor` table. -/
def SPEC_INTENT_FACTORS : List (String × ℚ) :=
  [ ("assertive", 1.00), ("retract", 0.95), ("planning", 0.72)
  , ("historical", 0.68), ("hypothetical", 0.45) ]

/-- The confidence formula exactly as claim C4 words it: a source type
*absent* from the reliability table contributes 0.5 (a present entry
contributes its stored value, whatever it is).  Outside the enumerated
intents the spec table is silent; the code's 0.5 default is kept so that the
comparison isolates the reliability lookup. -/
def spec_confidence (reliability : List (String × ℚ)) (sourceType intent : String)
    (nowMs eventMs : ℤ) (nCorroborators : ℕ) : ℚ :=
  let rel := (jsObjGet reliability sourceType).getD 0.5
  let intentFactor := (jsObjGet SPEC_INTENT_FACTORS intent).getD 0.5
  round3 (clamp (rel * intentFactor * spec_recency_factor nowMs eventMs *
    spec_corroboration_factor nCorroborators) 0 1)

/-- The C4 formula amended as the counterexample forces: a source type absent
from the reliability table — or one configured with reliability `0` — 
contributes 0.5 (JS `|| 0.5` treats a stored 0 as falsy). -/
def spec_confidence_amended (reliability : List (String × ℚ))
    (sourceType intent : String) (nowMs eventMs : ℤ) (nCorroborators : ℕ) : ℚ :=
  let rel :=
    match jsObjGet reliability sourceType with
    | some v => if v = 0 then (0.5 : ℚ) else v
    | none => 0.5
  let intentFactor := (jsObjGet SPEC_INTENT_FACTORS intent).getD 0.5
  round3 (clamp (rel * intentFactor * spec_recency_factor nowMs eventMs *
    spec_corroboration_factor nCorroborators) 0 1)

/-! ## Outcome recognizers for the inbound-message hook -/

/-- Did the hook synthesize and ingest an observation? -/
def InboundOutcome.didIngest : InboundOutcome → Bool
  | InboundOutcome.ingested _ => true
  | _ => false

/-- Did the hook resolve a pending prompt via `applyUserConfirmation`? -/
def InboundOutcome.didResolve : InboundOutcome → Bool
  | InboundOutcome.resolvedDecision _ _ _ => true
  | _ => false

/-- Every stored pending prompt is keyed by its own `prompt_id` (true of the
engine's store by construction: prompts are inserted under
`prompt.prompt_id`). -/
def pendingKeysMatch (m : List (String × PendingPrompt)) : Prop :=
  ∀ kv ∈ m, (Prod.snd kv).prompt_id = Prod.fst kv

/-- Action of a resolved decision (`""` otherwise). -/
def InboundOutcome.resolvedAction : InboundOutcome → String
  | InboundOutcome.resolvedDecision a _ _ => a
  | _ => ""

/-- Prompt id of a resolved decision (`""` otherwise). -/
def InboundOutcome.resolvedPromptId : InboundOutcome → String
  | InboundOutcome.resolvedDecision _ p _ => p
  | _ => ""

/-- Engine status of a resolved decision's `applyUserConfirmation` outcome
(`""` otherwise). -/
def InboundOutcome.resolvedStatus : InboundOutcome → String
  | InboundOutcome.resolvedDecision _ _ o => o.result.status
  | _ => ""

/-- Pending-prompt count left by a resolved decision's outcome. -/
def InboundOutcome.resolvedPendingCount : InboundOutcome → ℕ
  | InboundOutcome.resolvedDecision _ _ o => o.state.pending_confirmations.length
  | _ => 0

/-! ## Helper lemmas about the JS-object and sorting primitives -/

/-- Keys of a JS object are duplicate-free (true of every real JS object;
the representation invariant of the association-list model). -/
def jsObjWF {α : Type} (m : List (String × α)) : Prop :=
  (m.map Prod.fst).Nodup

theorem jsObjGet_set_self {α : Type} (m : List (String × α)) (k : String) (v : α) :
    jsObjGet (jsObjSet m k v) k = some v := by
  induction m with
  | nil => simp [jsObjGet, jsObjSet]
  | cons kv rest ih =>
      by_cases h : kv.1 = k
      · simp [jsObjGet, jsObjSet, h]
      · simpa [jsObjGet, jsObjSet, h, List.find?] using ih

theorem jsObjGet_delete_self {α : Type} (m : List (String × α)) (k : String)
    (hwf : jsObjWF m) : jsObjGet (jsObjDelete m k) k = none := by
  induction m with
  | nil => simp [jsObjGet, jsObjDelete]
  | cons kv rest ih =>
      simp only [jsObjWF, List.map_cons, List.nodup_cons] at hwf
      by_cases h : kv.1 = k
      · subst h
        simp only [jsObjDelete, beq_self_eq_true, if_true]
        cases hfind : rest.find? (fun kv' => kv'.1 == kv.1) with
        | none => simp [jsObjGet, hfind]
        | some kv' =>
            exact absurd (List.mem_map_of_mem Prod.fst (List.mem_of_find?_eq_some hfind))
              (by
                have := List.find?_some hfind
                simp only [beq_iff_eq] at this
                rw [this]
                exact hwf.1)
      · have hbeq : (kv.1 == k) = false := by simpa using h
        simp only [jsObjDelete, hbeq, Bool.false_eq_true, if_false, jsObjGet, List.find?, hbeq]
        exact ih hwf.2

theorem jsObjGet_of_mem_wf {α : Type} (m : List (String × α)) (k : String) (v : α)
    (hwf : jsObjWF m) (hmem : (k, v) ∈ m) : jsObjGet m k = some v := by
  induction m with
  | nil => simp at hmem
  | cons kv rest ih =>
      simp only [jsObjWF, List.map_cons, List.nodup_cons] at hwf
      rcases List.mem_cons.mp hmem with h | h
      · subst h
        simp [jsObjGet, List.find?]
      · have hk : kv.1 ≠ k := by
          intro he
          exact hwf.1 (he ▸ List.mem_map_of_mem Prod.fst h)
        have hbeq : (kv.1 == k) = false := by simpa using hk
        simp only [jsObjGet, List.find?, hbeq]
        exact ih hwf.2 h

theorem mem_jsSortInsert {α : Type} (le : α → α → Bool) (x a : α) (l : List α) :
    a ∈ jsSortBy.jsSortInsert le x l ↔ a = x ∨ a ∈ l := by
  induction l with
  | nil => simp [jsSortBy.jsSortInsert]
  | cons y ys ih =>
      cases h : le x y with
      | true => simp [jsSortBy.jsSortInsert, h]
      | false =>
          simp only [jsSortBy.jsSortInsert, h, Bool.false_eq_true, if_false,
            List.mem_cons, ih]
          tauto

theorem mem_jsSortBy {α : Type} (le : α → α → Bool) (a : α) (l : List α) :
    a ∈ jsSortBy le l ↔ a ∈ l := by
  induction l with
  | nil => simp [jsSortBy]
  | cons x xs ih => simp [jsSortBy, mem_jsSortInsert, ih]

theorem length_jsSortInsert {α : Type} (le : α → α → Bool) (x : α) (l : List α) :
    (jsSortBy.jsSortInsert le x l).length = l.length + 1 := by
  induction l with
  | nil => simp [jsSortBy.jsSortInsert]
  | cons y ys ih =>
      cases h : le x y with
      | true => simp [jsSortBy.jsSortInsert, h]
      | false => simp [jsSortBy.jsSortInsert, h, ih]

theorem length_jsSortBy {α : Type} (le : α → α → Bool) (l : List α) :
    (jsSortBy le l).length = l.length := by
  induction l with
  | nil => rfl
  | cons x xs ih => simp [jsSortBy, length_jsSortInsert, ih]

theorem mem_drop_append_last (l : List String) (e : String) (k : ℕ)
    (hk : k ≤ l.length) : e ∈ (l ++ [e]).drop k := by
  induction l generalizing k with
  | nil =>
      simp only [List.length_nil, Nat.le_zero] at hk
      subst hk
      simp
  | cons a rest ih =>
      cases k with
      | zero => simp
      | succ k' =>
          simpa using ih k' (by simpa using hk)

theorem mem_pushProcessedEventId (ids : List String) (e : String) :
    e ∈ pushProcessedEventId ids e := by
  unfold pushProcessedEventId
  split
  · assumption
  · simp only []
    split
    · apply mem_drop_append_last
      have h5000 : MAX_PROCESSED_EVENT_IDS = 5000 := rfl
      simp only [List.length_append, List.length_singleton]
      omega
    · simp


set_option maxRecDepth 100000
set_option maxHeartbeats 1000000

/-! ## C10 — deletion semantics of `applyCommittedObservation` -/

/-- C10: for every committed observation, `applyCommittedObservation` deletes
the `(entity_id, domain, field)` record whenever `candidate_value` is `null`,
regardless of the observation's intent, and likewise whenever the intent is
`retract` even if `candidate_value` is non-null; deletion is not limited to
`retract` combined with `null`. -/
theorem c10_applyCommittedObservation_deletes (entities : Entities)
    (o : StateObservation) (confidence : ℚ)
    (hwf : jsObjWF ((jsObjGet ((jsObjGet entities o.entity_id).getD [])
      o.domain).getD []))
    (h : o.intent = "retract" ∨ o.candidate_value.isNull = true) :
    (applyCommittedObservation entities o confidence).2.retracted = true ∧
    jsObjGet ((jsObjGet ((jsObjGet (applyCommittedObservation entities o confidence).1
        o.entity_id).getD []) o.domain).getD [])
      (fieldKeyFromObservation o) = none := by
  unfold applyCommittedObservation
  rw [if_pos h]
  refine ⟨rfl, ?_⟩
  unfold updateDomainState
  rw [jsObjGet_set_self]
  simp only [Option.getD_some]
  rw [jsObjGet_set_self]
  simp only [Option.getD_some]
  exact jsObjGet_delete_self _ _ hwf

/-- C10 witness: a `null` value with `assertive` intent deletes the record,
and so does a `retract` intent with a non-null value. -/
theorem c10_applyCommittedObservation_deletes_witness :
    ((applyCommittedObservation stateTieA.entities obsNullA 0.5).2.retracted = true ∧
      jsObjGet ((jsObjGet ((jsObjGet (applyCommittedObservation stateTieA.entities
          obsNullA 0.5).1 obsNullA.entity_id).getD []) obsNullA.domain).getD [])
        (fieldKeyFromObservation obsNullA) = none) ∧
    ((applyCommittedObservation stateTieA.entities obsRetractA 0.5).2.retracted = true ∧
      jsObjGet ((jsObjGet ((jsObjGet (applyCommittedObservation stateTieA.entities
          obsRetractA 0.5).1 obsRetractA.entity_id).getD []) obsRetractA.domain).getD [])
        (fieldKeyFromObservation obsRetractA) = none) :=
  ⟨c10_applyCommittedObservation_deletes stateTieA.entities obsNullA 0.5
      (by simp [jsObjWF, jsObjGet, stateTieA, stateA, obsNullA, obsTahoe, List.find?])
      (Or.inr (by with_unfolding_all decide)),
    c10_applyCommittedObservation_deletes stateTieA.entities obsRetractA 0.5
      (by simp [jsObjWF, jsObjGet, stateTieA, stateA, obsRetractA, obsTahoe, List.find?])
      (Or.inl (by with_unfolding_all decide))⟩

/-! ## C3 — margin ties at the resolver -/

/-- C3 counterexample: over `stateTieA` the observation `obsTieA` computes
confidence 1 (≥ the travel `auto_threshold` 0.9) and a margin of exactly the
travel `margin_threshold` 0.15, yet `resolveDecision` (without force-commit)
returns `auto_commit` and the full ingestion commits — the claim says a tie
on margin never auto-commits. -/
theorem c3_margin_tie_counterexample :
    (computeConfidence envA stateTieA obsTieA).confidence = 1 ∧
    ((jsObjGet stateTieA.domains obsTieA.domain).getD
        DOMAIN_DEFAULTS_general).auto_threshold ≤
      (computeConfidence envA stateTieA obsTieA).confidence ∧
    round3 ((computeConfidence envA stateTieA obsTieA).confidence -
        getCurrentFieldConfidence stateTieA obsTieA) =
      ((jsObjGet stateTieA.domains obsTieA.domain).getD
        DOMAIN_DEFAULTS_general).margin_threshold ∧
    (resolveDecision stateTieA obsTieA (computeConfidence envA stateTieA obsTieA)
        false).decision = "auto_commit" ∧
    (ingestObservation envA stateTieA obsTieA false).result.status = "committed" := by
  with_unfolding_all decide

/-- C3 amended: with `force_commit` unset, the resolver returns `auto_commit`
whenever `confidence ≥ auto_threshold` and `margin ≥ margin_threshold`, both
comparisons non-strict — so a margin exactly equal to `margin_threshold` does
auto-commit. -/
theorem c3_resolveDecision_auto_commit_on_tie (state : EngineState)
    (o : StateObservation) (analysis : ConfidenceAnalysis)
    (hauto : ((jsObjGet state.domains o.domain).getD
      DOMAIN_DEFAULTS_general).auto_threshold ≤ analysis.confidence)
    (hmargin : ((jsObjGet state.domains o.domain).getD
        DOMAIN_DEFAULTS_general).margin_threshold ≤
      round3 (analysis.confidence - getCurrentFieldConfidence state o)) :
    (resolveDecision state o analysis false).decision = "auto_commit" := by
  unfold resolveDecision
  rw [if_neg (by simp)]
  rw [if_pos ⟨hauto, hmargin⟩]

/-- C3 amended witness: the tie instance auto-commits. -/
theorem c3_resolveDecision_auto_commit_on_tie_witness :
    (resolveDecision stateTieA obsTieA (computeConfidence envA stateTieA obsTieA)
      false).decision = "auto_commit" :=
  c3_resolveDecision_auto_commit_on_tie stateTieA obsTieA
    (computeConfidence envA stateTieA obsTieA)
    (by with_unfolding_all decide) (by with_unfolding_all decide)

/-! ## C4 — the confidence formula -/

/-- C4 counterexample: with the document's reliability table configuring a
valid source type at reliability `0` (the merge in `loadState` keeps stored
values), the code's `|| 0.5` fallback also fires for the stored `0`:
`computeConfidence` yields 0.5 where the claim's formula — in which only an
*absent* type contributes 0.5 — yields 0. -/
theorem c4_reliability_falsy_counterexample :
    (computeConfidence envA stateZeroRelA obsTahoe).confidence = 0.5 ∧
    spec_confidence stateZeroRelA.source_reliability obsTahoe.source.type
      obsTahoe.intent envA.nowMs 0 obsTahoe.corroborators.length = 0 ∧
    (computeConfidence envA stateZeroRelA obsTahoe).confidence ≠
      spec_confidence stateZeroRelA.source_reliability obsTahoe.source.type
        obsTahoe.intent envA.nowMs 0 obsTahoe.corroborators.length := by
  with_unfolding_all decide

/-- C4 amended: for every observation with a parseable `event_ts` and an
enumerated intent, the computed confidence equals the claim's formula with
the reliability lookup amended so that a source type absent from the table
— or configured with reliability 0 — contributes 0.5. -/
theorem c4_confidence_formula_amended (env : Env) (state : EngineState)
    (o : StateObservation) (ms : ℤ)
    (hts : env.parseTs o.event_ts = some ms)
    (hintent : o.intent ∈ jsObjKeys INTENT_FACTORS) :
    (computeConfidence env state o).confidence =
      spec_confidence_amended state.source_reliability o.source.type o.intent
        env.nowMs ms o.corroborators.length := by
  have hrec : recencyFactor env.nowMs (env.parseTs o.event_ts) =
      spec_recency_factor env.nowMs ms := by
    rw [hts]
    unfold recencyFactor spec_recency_factor
    norm_num
  have hcor : clamp (1 + (o.corroborators.length : ℚ) * 0.05) 1 1.2 =
      spec_corroboration_factor o.corroborators.length := by
    unfold spec_corroboration_factor
    congr 1
    ring
  have hint : jsLookupNum INTENT_FACTORS o.intent 0.5 =
      (jsObjGet SPEC_INTENT_FACTORS o.intent).getD 0.5 := by
    simp only [jsObjKeys, INTENT_FACTORS, List.map_cons, List.map_nil,
      List.mem_cons, List.not_mem_nil, or_false] at hintent
    rcases hintent with h | h | h | h | h <;> rw [h] <;> with_unfolding_all decide
  unfold computeConfidence spec_confidence_amended
  simp only []
  rw [hrec, hint, hcor]
  rfl

/-- C4 amended witness: scenario S1's observation at `now` evaluates the
formula to 0.9. -/
theorem c4_confidence_formula_amended_witness :
    (computeConfidence envA stateA obsTahoe).confidence =
      spec_confidence_amended stateA.source_reliability obsTahoe.source.type
        obsTahoe.intent envA.nowMs 0 obsTahoe.corroborators.length :=
  c4_confidence_formula_amended envA stateA obsTahoe 0
    (by with_unfolding_all decide) (by with_unfolding_all decide)

/-! ## C6 — DLQ retry bookkeeping -/

/-- C6: for every retried `pending_retry` entry whose dispatch result is not
a resolved status for its schema, the appended update increments
`retry_count` by exactly 1; when the entry stays `pending_retry` the new
`next_retry_ts` is `now + backoff[min(retry_count, 3)]` over the schedule
[60 s, 5 min, 30 min, 2 h]; a result status in
{unsupported_schema, not_found, mismatch} — or `retry_count` reaching
`max_retries` (default 5) — marks the entry `failed_permanent`; and the
retry loop only ever selects `pending_retry` entries, so a
`failed_permanent` entry is never retried again. -/
theorem c6_dlq_retry_bookkeeping (nowMs : ℤ) (entry : DlqEntry)
    (resultStatus : String) (maxRetries : ℕ) (includeNotDue : Bool)
    (limit : ℕ) (entries : List DlqEntry)
    (hnot : isDlqResolvedResult entry.schema_name resultStatus = false) :
    (retryDlqUpdate nowMs entry resultStatus maxRetries).retry_count =
        entry.retry_count + 1 ∧
    ((retryDlqUpdate nowMs entry resultStatus maxRetries).status = "pending_retry" →
      (retryDlqUpdate nowMs entry resultStatus maxRetries).next_retry_ts =
        some (nowMs + DLQ_RETRY_SCHEDULE_MS.getD (min (entry.retry_count + 1) 3) 0)) ∧
    (isDlqPermanentFailure resultStatus = true ∨ maxRetries ≤ entry.retry_count + 1 →
      (retryDlqUpdate nowMs entry resultStatus maxRetries).status =
        "failed_permanent") ∧
    DLQ_RETRY_SCHEDULE_MS = [60000, 5 * 60000, 30 * 60000, 2 * 60 * 60000] ∧
    DLQ_DEFAULT_MAX_RETRIES = 5 ∧
    (∀ e ∈ dlqCandidates nowMs includeNotDue limit entries,
      e.status = "pending_retry") := by
  refine ⟨?_, ?_, ?_, rfl, rfl, ?_⟩
  · unfold retryDlqUpdate
    rw [hnot]
    simp only [Bool.false_eq_true, if_false]
    split <;> rfl
  · intro hstat
    unfold retryDlqUpdate at hstat ⊢
    rw [hnot] at hstat ⊢
    simp only [Bool.false_eq_true, if_false] at hstat ⊢
    by_cases hp : isDlqPermanentFailure resultStatus = true ∨
        maxRetries ≤ entry.retry_count + 1
    · rw [if_pos hp] at hstat
      exact absurd hstat (by simp)
    · rw [if_neg hp]
      rfl
  · intro hp
    unfold retryDlqUpdate
    rw [hnot]
    simp only [Bool.false_eq_true, if_false]
    rw [if_pos hp]
  · intro e he
    unfold dlqCandidates at he
    have h1 := List.mem_of_mem_take he
    have h2 := (mem_jsSortBy _ _ _).mp h1
    have h3 := (List.mem_filter.mp (List.mem_filter.mp
      (List.mem_filter.mp h2).1).1).2
    simpa using h3

/-- C6 witness: retrying the due entry `dlqEntryA` (one prior retry) on a
`validation_failed` result moves it to retry count 2 with the 30-minute
backoff slot, `not_found` fails it permanently, and the selection over
`[dlqEntryA]` yields only `pending_retry` entries. -/
theorem c6_dlq_retry_bookkeeping_witness :
    ((retryDlqUpdate 1000 dlqEntryA "validation_failed" 5).retry_count =
        dlqEntryA.retry_count + 1 ∧
      ((retryDlqUpdate 1000 dlqEntryA "validation_failed" 5).status = "pending_retry" →
        (retryDlqUpdate 1000 dlqEntryA "validation_failed" 5).next_retry_ts =
          some (1000 + DLQ_RETRY_SCHEDULE_MS.getD (min (dlqEntryA.retry_count + 1) 3) 0)) ∧
      (isDlqPermanentFailure "validation_failed" = true ∨ 5 ≤ dlqEntryA.retry_count + 1 →
        (retryDlqUpdate 1000 dlqEntryA "validation_failed" 5).status =
          "failed_permanent") ∧
      DLQ_RETRY_SCHEDULE_MS = [60000, 5 * 60000, 30 * 60000, 2 * 60 * 60000] ∧
      DLQ_DEFAULT_MAX_RETRIES = 5 ∧
      (∀ e ∈ dlqCandidates 1000 false 25 [dlqEntryA], e.status = "pending_retry")) ∧
    ((retryDlqUpdate 1000 dlqEntryA "not_found" 5).retry_count =
        dlqEntryA.retry_count + 1 ∧
      ((retryDlqUpdate 1000 dlqEntryA "not_found" 5).status = "pending_retry" →
        (retryDlqUpdate 1000 dlqEntryA "not_found" 5).next_retry_ts =
          some (1000 + DLQ_RETRY_SCHEDULE_MS.getD (min (dlqEntryA.retry_count + 1) 3) 0)) ∧
      (isDlqPermanentFailure "not_found" = true ∨ 5 ≤ dlqEntryA.retry_count + 1 →
        (retryDlqUpdate 1000 dlqEntryA "not_found" 5).status = "failed_permanent") ∧
      DLQ_RETRY_SCHEDULE_MS = [60000, 5 * 60000, 30 * 60000, 2 * 60 * 60000] ∧
      DLQ_DEFAULT_MAX_RETRIES = 5 ∧
      (∀ e ∈ dlqCandidates 1000 false 25 [dlqEntryA], e.status = "pending_retry")) :=
  ⟨c6_dlq_retry_bookkeeping 1000 dlqEntryA "validation_failed" 5 false 25 [dlqEntryA]
      (by with_unfolding_all decide),
    c6_dlq_retry_bookkeeping 1000 dlqEntryA "not_found" 5 false 25 [dlqEntryA]
      (by with_unfolding_all decide)⟩

/-! ## C9 — confirm/edit commits are unconditional -/

/-- Helper: `computeConfidence` reads only the reliability table of the document. -/
theorem computeConfidence_congr (env : Env) (s s' : EngineState)
    (o : StateObservation) (h : s.source_reliability = s'.source_reliability) :
    computeConfidence env s o = computeConfidence env s' o := by
  unfold computeConfidence
  rw [h]

/-- C9: for every schema-valid confirmation with action `confirm` or `edit`
whose `prompt_id` names an existing pending prompt with matching entity and
domain, `applyUserConfirmation` commits the synthesized observation whenever
that observation itself passes schema validation: the commit is applied
directly through `applyCommittedObservation`, for arbitrary domain
thresholds (no `resolveDecision` call) and for an arbitrary fresh uuid — in
particular one already contained in `processed_event_ids` (no idempotency
lookup). -/
theorem c9_applyUserConfirmation_commits_unconditionally (env : Env)
    (state : EngineState) (c : UserConfirmation) (pending : PendingPrompt)
    (hvalid : env.validConfirmation c = true)
    (hfound : jsObjGet state.pending_confirmations c.prompt_id = some pending)
    (hentity : pending.entity_id = c.entity_id)
    (hdomain : pending.domain = c.domain)
    (haction : c.action = "confirm" ∨ c.action = "edit")
    (hobs : env.validObservation (synthesizedObservation env c pending) = true) :
    (applyUserConfirmation env state c).result.status = "committed" ∧
    (applyUserConfirmation env state c).result.committed_event_id = env.uuids 0 ∧
    (applyUserConfirmation env state c).state.entities =
      (applyCommittedObservation state.entities (synthesizedObservation env c pending)
        (computeConfidence env state (synthesizedObservation env c pending)).confidence).1 := by
  have hreject : ¬(c.action = "reject") := by
    rcases haction with h | h <;> rw [h] <;> simp
  unfold applyUserConfirmation
  rw [if_pos hvalid, hfound]
  simp only []
  rw [if_neg (by rw [hentity, hdomain]; simp)]
  rw [if_neg hreject, if_pos hobs]
  exact ⟨rfl, rfl, rfl⟩

/-- C9 witness: confirming the stored prompt `p1` commits with the fresh
uuid, with the engine's default thresholds in place. -/
theorem c9_applyUserConfirmation_commits_unconditionally_witness :
    (applyUserConfirmation envA statePendA confirmA).result.status = "committed" ∧
    (applyUserConfirmation envA statePendA confirmA).result.committed_event_id =
      envA.uuids 0 ∧
    (applyUserConfirmation envA statePendA confirmA).state.entities =
      (applyCommittedObservation statePendA.entities
        (synthesizedObservation envA confirmA promptP1)
        (computeConfidence envA statePendA
          (synthesizedObservation envA confirmA promptP1)).confidence).1 :=
  c9_applyUserConfirmation_commits_unconditionally envA statePendA confirmA promptP1
    (by with_unfolding_all decide) (by with_unfolding_all rfl)
    (by with_unfolding_all decide) (by with_unfolding_all decide)
    (Or.inl (by with_unfolding_all decide)) (by with_unfolding_all decide)

/-! ## C2 — committed event ids versus `processed_event_ids` -/

/-- C2 counterexample: confirming the pending prompt `p1` commits a record
whose `event_id` is the fresh uuid, but `processed_event_ids` still holds
only the original `ev-orig`: the committed record's event id is NOT a member
of `processed_event_ids` after the confirm/edit commit path. -/
theorem c2_confirm_commit_event_id_counterexample :
    (applyUserConfirmation envA statePendA confirmA).result.status = "committed" ∧
    (jsObjGet ((jsObjGet ((jsObjGet
          (applyUserConfirmation envA statePendA confirmA).state.entities
          "user:primary").getD []) "travel").getD []) "alert").map
        (fun r => r.event_id) = some "fresh-uuid" ∧
    "fresh-uuid" ∉
      (applyUserConfirmation envA statePendA confirmA).state.processed_event_ids := by
  with_unfolding_all decide

/-- C2 amended: the invariant holds on the auto-commit path —
`ingestObservation`'s committed record carries the observation's `event_id`,
which is registered in `processed_event_ids` — but the confirm/edit commit
of `applyUserConfirmation` leaves `processed_event_ids` entirely unchanged,
so its freshly generated committed `event_id` is never added. -/
theorem c2_commit_event_id_membership_amended :
    (∀ (env : Env) (s : EngineState) (o : StateObservation) (fc : Bool),
      (ingestObservation env s o fc).result.status = "committed" →
        o.event_id ∈ (ingestObservation env s o fc).state.processed_event_ids ∧
        (¬(o.intent = "retract" ∨ o.candidate_value.isNull = true) →
          (jsObjGet ((jsObjGet ((jsObjGet
                (ingestObservation env s o fc).state.entities
                o.entity_id).getD []) o.domain).getD [])
              (fieldKeyFromObservation o)).map (fun r => r.event_id) =
            some o.event_id)) ∧
    (∀ (env : Env) (s : EngineState) (c : UserConfirmation),
      (applyUserConfirmation env s c).state.processed_event_ids =
        s.processed_event_ids) := by
  constructor
  · intro env s o fc hstatus
    unfold ingestObservation at hstatus ⊢
    by_cases hv : env.validObservation o = true
    · rw [if_pos hv] at hstatus ⊢
      by_cases hdup : o.event_id ∈ s.processed_event_ids
      · rw [if_pos hdup] at hstatus
        simp at hstatus
      · rw [if_neg hdup] at hstatus ⊢
        simp only [] at hstatus ⊢
        by_cases hauto :
            (resolveDecision s o (computeConfidence env s o) fc).decision =
              "auto_commit"
        · rw [if_pos hauto] at hstatus ⊢
          refine ⟨mem_pushProcessedEventId _ _, ?_⟩
          intro hnotretract
          unfold applyCommittedObservation
          rw [if_neg hnotretract]
          unfold updateDomainState saveStamp
          simp only [jsObjGet_set_self, Option.getD_some]
          rfl
        · rw [if_neg hauto] at hstatus
          by_cases hask :
              (resolveDecision s o (computeConfidence env s o) fc).decision =
                "ask_user"
          · rw [if_pos hask] at hstatus
            simp at hstatus
          · rw [if_neg hask] at hstatus
            simp at hstatus
    · rw [if_neg hv] at hstatus
      simp at hstatus
  · intro env s c
    unfold applyUserConfirmation
    by_cases hv : env.validConfirmation c = true
    · rw [if_pos hv]
      cases hfound : jsObjGet s.pending_confirmations c.prompt_id with
      | none => rfl
      | some pending =>
          simp only []
          by_cases hmm : pending.entity_id ≠ c.entity_id ∨ pending.domain ≠ c.domain
          · rw [if_pos hmm]
          · rw [if_neg hmm]
            by_cases hrej : c.action = "reject"
            · rw [if_pos hrej]
              rfl
            · rw [if_neg hrej]
              by_cases hov :
                  env.validObservation (synthesizedObservation env c pending) = true
              · rw [if_pos hov]
                rfl
              · rw [if_neg hov]
                rfl
    · rw [if_neg hv]

/-- C2 amended witness: scenario S1's auto-commit registers `ev-1` and the
stored record carries it; the confirm commit leaves `processed_event_ids`
unchanged. -/
theorem c2_commit_event_id_membership_amended_witness :
    ("ev-1" ∈ (ingestObservation envA stateA obsTahoe false).state.processed_event_ids ∧
      (¬(obsTahoe.intent = "retract" ∨ obsTahoe.candidate_value.isNull = true) →
        (jsObjGet ((jsObjGet ((jsObjGet
              (ingestObservation envA stateA obsTahoe false).state.entities
              obsTahoe.entity_id).getD []) obsTahoe.domain).getD [])
            (fieldKeyFromObservation obsTahoe)).map (fun r => r.event_id) =
          some "ev-1")) ∧
    (applyUserConfirmation envA statePendA confirmA).state.processed_event_ids =
      statePendA.processed_event_ids :=
  ⟨c2_commit_event_id_membership_amended.1 envA stateA obsTahoe false
      (by with_unfolding_all decide),
    c2_commit_event_id_membership_amended.2 envA statePendA confirmA⟩

/-! ## C1 — ingestion idempotency via the processed-event set -/

/-- C1: once a first `ingestObservation` call has processed an observation's
`event_id` (the observation is schema-valid and its id is new), the first
call performs exactly one mutation — a commit with pending prompts and
tentatives untouched, one new pending prompt with records and tentatives
untouched, or one tentative stash with records and prompts untouched — and a
second call with the same `event_id` returns status `duplicate`, leaves the
document exactly as the first call left it, and appends no audit line. -/
theorem c1_ingestObservation_idempotent (env env' : Env) (s : EngineState)
    (o : StateObservation) (fc fc' : Bool)
    (hvalid : env.validObservation o = true)
    (hvalid' : env'.validObservation o = true)
    (hnew : o.event_id ∉ s.processed_event_ids) :
    (ingestObservation env s o fc).result.status ∈
      ["committed", "pending_confirmation", "tentative"] ∧
    o.event_id ∈ (ingestObservation env s o fc).state.processed_event_ids ∧
    ((ingestObservation env s o fc).result.status = "committed" →
      (ingestObservation env s o fc).state.pending_confirmations =
          s.pending_confirmations ∧
      (ingestObservation env s o fc).state.tentative_observations =
          s.tentative_observations) ∧
    ((ingestObservation env s o fc).result.status = "pending_confirmation" →
      (ingestObservation env s o fc).state.entities = s.entities ∧
      (ingestObservation env s o fc).state.tentative_observations =
          s.tentative_observations ∧
      ∃ p, (ingestObservation env s o fc).result.prompt = some p ∧
        (ingestObservation env s o fc).state.pending_confirmations =
          jsObjSet s.pending_confirmations p.prompt_id p) ∧
    ((ingestObservation env s o fc).result.status = "tentative" →
      (ingestObservation env s o fc).state.entities = s.entities ∧
      (ingestObservation env s o fc).state.pending_confirmations =
          s.pending_confirmations) ∧
    ingestObservation env' (ingestObservation env s o fc).state o fc' =
      { state := (ingestObservation env s o fc).state
        result := { status := "duplicate", confidence := 0, margin := 0
                    reasons := [], prompt := none }
        audit := [] } := by
  have hmem : o.event_id ∈ (ingestObservation env s o fc).state.processed_event_ids := by
    unfold ingestObservation
    rw [if_pos hvalid, if_neg hnew]
    simp only []
    by_cases hauto :
        (resolveDecision s o (computeConfidence env s o) fc).decision = "auto_commit"
    · rw [if_pos hauto]
      exact mem_pushProcessedEventId _ _
    · rw [if_neg hauto]
      by_cases hask :
          (resolveDecision s o (computeConfidence env s o) fc).decision = "ask_user"
      · rw [if_pos hask]
        exact mem_pushProcessedEventId _ _
      · rw [if_neg hask]
        exact mem_pushProcessedEventId _ _
  refine ⟨?_, hmem, ?_, ?_, ?_, ?_⟩
  · unfold ingestObservation
    rw [if_pos hvalid, if_neg hnew]
    simp only []
    by_cases hauto :
        (resolveDecision s o (computeConfidence env s o) fc).decision = "auto_commit"
    · rw [if_pos hauto]
      simp
    · rw [if_neg hauto]
      by_cases hask :
          (resolveDecision s o (computeConfidence env s o) fc).decision = "ask_user"
      · rw [if_pos hask]
        simp
      · rw [if_neg hask]
        simp
  · unfold ingestObservation
    rw [if_pos hvalid, if_neg hnew]
    simp only []
    by_cases hauto :
        (resolveDecision s o (computeConfidence env s o) fc).decision = "auto_commit"
    · rw [if_pos hauto]
      exact fun _ => ⟨rfl, rfl⟩
    · rw [if_neg hauto]
      by_cases hask :
          (resolveDecision s o (computeConfidence env s o) fc).decision = "ask_user"
      · rw [if_pos hask]
        intro hstat
        simp at hstat
      · rw [if_neg hask]
        intro hstat
        simp at hstat
  · unfold ingestObservation
    rw [if_pos hvalid, if_neg hnew]
    simp only []
    by_cases hauto :
        (resolveDecision s o (computeConfidence env s o) fc).decision = "auto_commit"
    · rw [if_pos hauto]
      intro hstat
      simp at hstat
    · rw [if_neg hauto]
      by_cases hask :
          (resolveDecision s o (computeConfidence env s o) fc).decision = "ask_user"
      · rw [if_pos hask]
        intro _
        exact ⟨rfl, rfl,
          createPendingPrompt (env.uuids 0) env.nowIsoStr o
            (resolveDecision s o (computeConfidence env s o) fc).reasons
            (computeConfidence env s o).confidence, rfl, rfl⟩
      · rw [if_neg hask]
        intro hstat
        simp at hstat
  · unfold ingestObservation
    rw [if_pos hvalid, if_neg hnew]
    simp only []
    by_cases hauto :
        (resolveDecision s o (computeConfidence env s o) fc).decision = "auto_commit"
    · rw [if_pos hauto]
      intro hstat
      simp at hstat
    · rw [if_neg hauto]
      by_cases hask :
          (resolveDecision s o (computeConfidence env s o) fc).decision = "ask_user"
      · rw [if_pos hask]
        intro hstat
        simp at hstat
      · rw [if_neg hask]
        exact fun _ => ⟨rfl, rfl⟩
  · generalize hS : (ingestObservation env s o fc).state = S at hmem ⊢
    unfold ingestObservation
    rw [if_pos hvalid', if_pos hmem]

/-- C1 witness: scenario S1 — the first ingest of the Tahoe observation over
the fresh store mutates once; the replay is a pure duplicate. -/
theorem c1_ingestObservation_idempotent_witness :
    (ingestObservation envA stateA obsTahoe false).result.status ∈
      ["committed", "pending_confirmation", "tentative"] ∧
    "ev-1" ∈ (ingestObservation envA stateA obsTahoe false).state.processed_event_ids ∧
    ((ingestObservation envA stateA obsTahoe false).result.status = "committed" →
      (ingestObservation envA stateA obsTahoe false).state.pending_confirmations =
          stateA.pending_confirmations ∧
      (ingestObservation envA stateA obsTahoe false).state.tentative_observations =
          stateA.tentative_observations) ∧
    ((ingestObservation envA stateA obsTahoe false).result.status = "pending_confirmation" →
      (ingestObservation envA stateA obsTahoe false).state.entities = stateA.entities ∧
      (ingestObservation envA stateA obsTahoe false).state.tentative_observations =
          stateA.tentative_observations ∧
      ∃ p, (ingestObservation envA stateA obsTahoe false).result.prompt = some p ∧
        (ingestObservation envA stateA obsTahoe false).state.pending_confirmations =
          jsObjSet stateA.pending_confirmations p.prompt_id p) ∧
    ((ingestObservation envA stateA obsTahoe false).result.status = "tentative" →
      (ingestObservation envA stateA obsTahoe false).state.entities = stateA.entities ∧
      (ingestObservation envA stateA obsTahoe false).state.pending_confirmations =
          stateA.pending_confirmations) ∧
    ingestObservation envA (ingestObservation envA stateA obsTahoe false).state
        obsTahoe false =
      { state := (ingestObservation envA stateA obsTahoe false).state
        result := { status := "duplicate", confidence := 0, margin := 0
                    reasons := [], prompt := none }
        audit := [] } :=
  c1_ingestObservation_idempotent envA envA stateA obsTahoe false false
    (by with_unfolding_all decide) (by with_unfolding_all decide)
    (by with_unfolding_all decide)

/-! ## C7 — review-queue promotion cap -/

theorem countPendingFiltered_cons (kv : String × PendingPrompt)
    (m : List (String × PendingPrompt)) (e d : String) :
    countPendingFiltered (kv :: m) e d =
      (if (e = "" ∨ kv.2.entity_id = e) ∧ (d = "" ∨ kv.2.domain = d) then 1 else 0) +
        countPendingFiltered m e d := by
  unfold countPendingFiltered jsObjValues
  simp only [List.map_cons, List.filter_cons]
  split
  · rename_i h
    rw [if_pos (by simpa using h)]
    simp [Nat.add_comm]
  · rename_i h
    rw [if_neg (by simpa using h)]
    simp

theorem countPendingFiltered_jsObjSet_le (m : List (String × PendingPrompt))
    (k : String) (v : PendingPrompt) (e d : String) :
    countPendingFiltered (jsObjSet m k v) e d ≤ countPendingFiltered m e d + 1 := by
  induction m with
  | nil =>
      unfold jsObjSet
      rw [countPendingFiltered_cons]
      split <;> simp [countPendingFiltered, jsObjValues]
  | cons kv rest ih =>
      unfold jsObjSet
      split
      · rw [countPendingFiltered_cons, countPendingFiltered_cons]
        split <;> split <;> omega
      · rw [countPendingFiltered_cons, countPendingFiltered_cons]
        omega

theorem promoteLoop_promoted_count (env : Env) (state : EngineState)
    (items : List TentativeObservation) (i : ℕ) :
    (promoteLoop env state items i).2 = items.length := by
  induction items generalizing state i with
  | nil => rfl
  | cons item rest ih =>
      unfold promoteLoop
      simp only [ih, List.length_cons]

theorem promoteLoop_pending_le (env : Env) (state : EngineState)
    (items : List TentativeObservation) (i : ℕ) (e d : String) :
    countPendingFiltered (promoteLoop env state items i).1.pending_confirmations e d ≤
      countPendingFiltered state.pending_confirmations e d + items.length := by
  induction items generalizing state i with
  | nil => simp [promoteLoop]
  | cons item rest ih =>
      unfold promoteLoop
      simp only []
      refine le_trans (ih _ _) ?_
      have := countPendingFiltered_jsObjSet_le state.pending_confirmations
        (createPendingPrompt (env.uuids i) env.nowIsoStr
          (tentativeToObservation (env.uuids i) env.nowIsoStr item)
          ("promoted_from_tentative_review_queue" :: item.reasons)
          item.confidence).prompt_id
        (createPendingPrompt (env.uuids i) env.nowIsoStr
          (tentativeToObservation (env.uuids i) env.nowIsoStr item)
          ("promoted_from_tentative_review_queue" :: item.reasons)
          item.confidence) e d
      simp only [List.length_cons]
      omega

/-- C7: when the filtered pending count is already at or above `max_pending`,
`promoteReviewQueue` promotes nothing, reports `pending_limit_reached` and
leaves the pending store untouched; otherwise it promotes at most
`min(limit, max_pending − current_pending)` tentatives and the filtered
pending count after promotion never exceeds `max_pending`. -/
theorem c7_promoteReviewQueue_cap (env : Env) (state : EngineState)
    (options : PromoteOptions) :
    (max 1 (if options.max_pending = 0 then 10 else options.max_pending) ≤
        countPendingFiltered state.pending_confirmations options.entity_id
          options.domain →
      (promoteReviewQueue env state options).2.promoted_count = 0 ∧
      (promoteReviewQueue env state options).2.reason = "pending_limit_reached" ∧
      (promoteReviewQueue env state options).1.pending_confirmations =
        state.pending_confirmations) ∧
    (countPendingFiltered state.pending_confirmations options.entity_id
        options.domain <
          max 1 (if options.max_pending = 0 then 10 else options.max_pending) →
      (promoteReviewQueue env state options).2.promoted_count ≤
        min (max 1 (if options.limit = 0 then 5 else options.limit))
          (max 1 (if options.max_pending = 0 then 10 else options.max_pending) -
            countPendingFiltered state.pending_confirmations options.entity_id
              options.domain) ∧
      countPendingFiltered
          (promoteReviewQueue env state options).1.pending_confirmations
          options.entity_id options.domain ≤
        max 1 (if options.max_pending = 0 then 10 else options.max_pending)) := by
  constructor
  · intro hfull
    unfold promoteReviewQueue
    simp only []
    rw [if_pos (by omega)]
    exact ⟨rfl, rfl, rfl⟩
  · intro hroom
    unfold promoteReviewQueue
    simp only []
    rw [if_neg (by omega)]
    constructor
    · simp only [promoteLoop_promoted_count]
      refine le_trans (List.length_take_le _ _) ?_
      exact le_refl _
    · simp only [saveStamp]
      refine le_trans (promoteLoop_pending_le env state _ 0 options.entity_id
        options.domain) ?_
      have hlen : ((jsSortBy (fun a b =>
            if a.confidence ≠ b.confidence then decide (b.confidence ≤ a.confidence)
            else strLe a.observed_at b.observed_at)
          (promoteEligible state (options.min_confidence.getD 0.4)
            options.entity_id options.domain)).take
          (min (max 1 (if options.limit = 0 then 5 else options.limit))
            (max 1 (if options.max_pending = 0 then 10 else options.max_pending) -
              countPendingFiltered state.pending_confirmations options.entity_id
                options.domain))).length ≤
          max 1 (if options.max_pending = 0 then 10 else options.max_pending) -
            countPendingFiltered state.pending_confirmations options.entity_id
              options.domain := by
        refine le_trans (List.length_take_le _ _) ?_
        omega
      omega

/-- C7 witness: scenario S4 — with one pending prompt and `max_pending = 1`
promotion reports `pending_limit_reached` and promotes nothing; with
`max_pending = 2` it promotes at most one tentative and stays within the
cap. -/
theorem c7_promoteReviewQueue_cap_witness :
    ((promoteReviewQueue envA statePromoteA ⟨some 0.4, 5, 1, "", ""⟩).2.promoted_count = 0 ∧
      (promoteReviewQueue envA statePromoteA ⟨some 0.4, 5, 1, "", ""⟩).2.reason =
        "pending_limit_reached" ∧
      (promoteReviewQueue envA statePromoteA ⟨some 0.4, 5, 1, "", ""⟩).1.pending_confirmations =
        statePromoteA.pending_confirmations) ∧
    ((promoteReviewQueue envA statePromoteA ⟨some 0.4, 5, 2, "", ""⟩).2.promoted_count ≤
        min (max 1 5)
          (max 1 2 - countPendingFiltered statePromoteA.pending_confirmations "" "") ∧
      countPendingFiltered
          (promoteReviewQueue envA statePromoteA ⟨some 0.4, 5, 2, "", ""⟩).1.pending_confirmations
          "" "" ≤ max 1 2) :=
  ⟨(by
      have h := (c7_promoteReviewQueue_cap envA statePromoteA ⟨some 0.4, 5, 1, "", ""⟩).1
        (by with_unfolding_all decide)
      simpa using h),
    (by
      have h := (c7_promoteReviewQueue_cap envA statePromoteA ⟨some 0.4, 5, 2, "", ""⟩).2
        (by with_unfolding_all decide)
      simpa using h)⟩

/-! ## C8 — inbound skip rules versus natural yes/no interpretation -/

/-- C8 counterexample: the inbound text `"no."` matches the skip rules (3
characters, below `ingest_min_chars` 12), yet with the prompt `p1` pending
the hook resolves it as a natural reject through `applyUserConfirmation` —
the prompt is gone afterwards — because the natural-decision interpretation
runs before `shouldSkipInboundAssertion`. -/
theorem c8_skip_rules_counterexample :
    shouldSkipInboundAssertion (normalizeInboundText "no.") 12 = true ∧
    (messageReceived envA statePendA "" 12 10 "no." obsTahoe).didResolve = true ∧
    (messageReceived envA statePendA "" 12 10 "no." obsTahoe).resolvedAction =
      "reject" ∧
    (messageReceived envA statePendA "" 12 10 "no." obsTahoe).resolvedPromptId =
      "p1" ∧
    (messageReceived envA statePendA "" 12 10 "no." obsTahoe).resolvedStatus =
      "rejected" ∧
    (messageReceived envA statePendA "" 12 10 "no." obsTahoe).resolvedPendingCount =
      0 := by
  with_unfolding_all decide


/-- C8 amended: the hook's skip rules gate only the assertion-ingestion path
and run after the natural yes/no interpretation — an observation is only
ever ingested when the text clears the skip rules, and a message matching
the skip rules that does not parse as a bare yes/no answer (or arrives with
no pending prompt) is skipped entirely; but a text parsing as a bare yes/no
answer resolves the active (or oldest) pending prompt through
`applyUserConfirmation` even when it matches the skip rules. -/
theorem c8_skip_rules_amended (env : Env) (state : EngineState)
    (activePromptId : String) (minChars maxPending : ℕ) (rawText : String)
    (obs : StateObservation)
    (hwf : jsObjWF state.pending_confirmations)
    (hkeys : pendingKeysMatch state.pending_confirmations) :
    ((messageReceived env state activePromptId minChars maxPending rawText
        obs).didIngest = true →
      shouldSkipInboundAssertion (normalizeInboundText rawText) minChars = false) ∧
    (shouldSkipInboundAssertion (normalizeInboundText rawText) minChars = true →
      (parseNaturalConfirmationAction (normalizeInboundText rawText) = "" ∨
        state.pending_confirmations = []) →
      messageReceived env state activePromptId minChars maxPending rawText obs =
          InboundOutcome.skippedByRules ∨
      messageReceived env state activePromptId minChars maxPending rawText obs =
          InboundOutcome.emptyText) ∧
    (parseNaturalConfirmationAction (normalizeInboundText rawText) ≠ "" →
      state.pending_confirmations ≠ [] →
      (messageReceived env state activePromptId minChars maxPending rawText
        obs).didResolve = true) := by
  refine ⟨?_, ?_, ?_⟩
  · intro hing
    unfold messageReceived at hing
    by_cases htext : normalizeInboundText rawText = ""
    · rw [if_pos htext] at hing
      simp [InboundOutcome.didIngest] at hing
    · rw [if_neg htext] at hing
      simp only [] at hing
      cases hres : (if parseNaturalConfirmationAction (normalizeInboundText rawText) = ""
          then (none : Option (String × PendingPrompt))
          else
            match resolvePromptId state.pending_confirmations "" activePromptId with
            | none => none
            | some promptId =>
                match jsObjGet state.pending_confirmations promptId with
                | none => none
                | some pending => some (promptId, pending)) with
      | some pr =>
          obtain ⟨pid, p⟩ := pr
          rw [hres] at hing
          simp [InboundOutcome.didIngest] at hing
      | none =>
          rw [hres] at hing
          simp only [] at hing
          by_cases hskip :
              shouldSkipInboundAssertion (normalizeInboundText rawText) minChars = true
          · rw [if_pos hskip] at hing
            simp [InboundOutcome.didIngest] at hing
          · simpa using hskip
  · intro hskip hnone
    unfold messageReceived
    by_cases htext : normalizeInboundText rawText = ""
    · rw [if_pos htext]
      right
      rfl
    · rw [if_neg htext]
      simp only []
      have hres :
          (if parseNaturalConfirmationAction (normalizeInboundText rawText) = ""
            then (none : Option (String × PendingPrompt))
            else
              match resolvePromptId state.pending_confirmations "" activePromptId with
              | none => none
              | some promptId =>
                  match jsObjGet state.pending_confirmations promptId with
                  | none => none
                  | some pending => some (promptId, pending)) = none := by
        rcases hnone with h | h
        · rw [if_pos h]
        · by_cases hact :
              parseNaturalConfirmationAction (normalizeInboundText rawText) = ""
          · rw [if_pos hact]
          · rw [if_neg hact, h]
            rfl
      rw [hres]
      simp only []
      rw [if_pos hskip]
      left
      rfl
  · intro hact hpend
    have htext : normalizeInboundText rawText ≠ "" := by
      intro he
      exact hact (by rw [he]; rfl)
    unfold messageReceived
    rw [if_neg htext]
    simp only []
    have hfind : ∃ promptId pending,
        resolvePromptId state.pending_confirmations "" activePromptId =
          some promptId ∧
        jsObjGet state.pending_confirmations promptId = some pending := by
      unfold resolvePromptId
      rw [if_neg (by simpa using hpend)]
      rw [if_neg (by simp)]
      by_cases hactive : activePromptId ≠ "" ∧
          (jsObjGet state.pending_confirmations activePromptId).isSome = true
      · rw [if_pos hactive]
        rcases Option.isSome_iff_exists.mp hactive.2 with ⟨pending, hp⟩
        exact ⟨activePromptId, pending, rfl, hp⟩
      · rw [if_neg hactive]
        cases hhead : (sortPending state.pending_confirmations).head? with
        | none =>
            exfalso
            rw [List.head?_eq_none_iff] at hhead
            have hlen : (sortPending state.pending_confirmations).length =
                state.pending_confirmations.length := by
              unfold sortPending jsObjValues
              rw [length_jsSortBy, List.length_map]
            rw [hhead] at hlen
            cases hp : state.pending_confirmations with
            | nil => exact hpend hp
            | cons kv rest => rw [hp] at hlen; simp at hlen
        | some p =>
            have hmemsort : p ∈ sortPending state.pending_confirmations :=
              List.mem_of_mem_head? hhead
            have hmemval : p ∈ jsObjValues state.pending_confirmations := by
              unfold sortPending at hmemsort
              exact (mem_jsSortBy _ _ _).mp hmemsort
            rcases List.mem_map.mp hmemval with ⟨kv, hkv, hkveq⟩
            have hkey : kv.1 = p.prompt_id := by
              have := hkeys kv hkv
              rw [hkveq] at this
              exact this.symm
            have hget : jsObjGet state.pending_confirmations p.prompt_id = some p := by
              have hmem2 : (p.prompt_id, p) ∈ state.pending_confirmations := by
                have hkvpair : kv = (p.prompt_id, p) := by
                  cases kv
                  simp only [Prod.mk.injEq]
                  exact ⟨by simpa using hkey, by simpa using hkveq⟩
                rw [← hkvpair]
                exact hkv
              exact jsObjGet_of_mem_wf _ _ _ hwf hmem2
            exact ⟨p.prompt_id, p, rfl, hget⟩
    rcases hfind with ⟨promptId, pending, hres, hget⟩
    rw [if_neg hact, hres]
    simp only [hget]
    rfl

/-- C8 amended witness: over the pending store, `"hello"` (5 chars, below
the minimum) is skipped outright, while the bare `"no."` resolves the
prompt. -/
theorem c8_skip_rules_amended_witness :
    (shouldSkipInboundAssertion (normalizeInboundText "hello") 12 = true →
      (parseNaturalConfirmationAction (normalizeInboundText "hello") = "" ∨
        statePendA.pending_confirmations = []) →
      messageReceived envA statePendA "" 12 10 "hello" obsTahoe =
          InboundOutcome.skippedByRules ∨
      messageReceived envA statePendA "" 12 10 "hello" obsTahoe =
          InboundOutcome.emptyText) ∧
    (parseNaturalConfirmationAction (normalizeInboundText "no.") ≠ "" →
      statePendA.pending_confirmations ≠ [] →
      (messageReceived envA statePendA "" 12 10 "no." obsTahoe).didResolve = true) :=
  ⟨(c8_skip_rules_amended envA statePendA "" 12 10 "hello" obsTahoe
      (by unfold jsObjWF; with_unfolding_all decide)
      (by unfold pendingKeysMatch; with_unfolding_all decide)).2.1,
    (c8_skip_rules_amended envA statePendA "" 12 10 "no." obsTahoe
      (by unfold jsObjWF; with_unfolding_all decide)
      (by unfold pendingKeysMatch; with_unfolding_all decide)).2.2⟩

/-! ## C5 — projection idempotence -/

/-- C5 (code bug): starting from a fresh store and artifact, the first
projection run writes the zones and appends no audit line; running the
projection again with no intervening mutation leaves the artifact
byte-identical, but — although the in-file zone bodies are exactly what the
first run wrote — the second run appends a `drift_detected` audit line for
BOTH zones: `captureSectionBody` strips the trailing newline of the body
between the markers while the persisted `projection_hashes` fingerprint the
body text including its trailing newline, so the recaptured body never
matches the persisted hash. -/
theorem c5_projection_second_run_logs_drift :
    (let r1 := renderHeartbeatProjection envA stateA "# State Changes Log\n\n"
        "# HEARTBEAT.md\n" ""
     let r2 := renderHeartbeatProjection envA r1.state "# State Changes Log\n\n"
        r1.text ""
     r1.audit = [] ∧
     r2.text = r1.text ∧
     r2.audit =
       [ "- 2026-01-01T00:00:00.000Z | drift_detected | section=## Canonical State (Machine Managed) | action=reconcile"
       , "- 2026-01-01T00:00:00.000Z | drift_detected | section=## State Change Log (Machine Managed) | action=reconcile" ]) := by
  with_unfolding_all decide
